import Mathlib

set_option maxRecDepth 8000

/-!
Shallow embedding of the exam-text extraction pipeline of this repository
(exam_parser.py and case_parser.py).  Text is modelled as `List Char`;
positions are codepoint indices, matching Python string indexing.  Each
regular expression of the source is transliterated into a deterministic
scanner over the character ranges that occur in these documents
(ASCII, CJK ideographs, full-width punctuation); the scanners reproduce
leftmost search, greedy/lazy quantifier resolution and word boundaries of
the concrete patterns.
-/

/-- Python strings are sequences of codepoints; we model them as `List Char`. -/
abbrev Str := List Char

/-- Python regex class `\s` (whitespace), over the characters occurring in
these documents: ASCII whitespace plus NBSP and the ideographic space. -/
def isPySpace (c : Char) : Bool :=
  c = ' ' || c = '\t' || c = '\n' || c = '\r' || c = '\x0b' || c = '\x0c' ||
  c = ' ' || c = '　'

/-- The CJK range `[一-龥]` (U+4E00 .. U+9FA5) used by the no-punctuation
question recognizer in `_parse_questions`. -/
def isCJK (c : Char) : Bool := '一' ≤ c && c ≤ '龥'

/-- The question-number punctuation class `[.、．]`. -/
def isQPunct (c : Char) : Bool := c = '.' || c = '、' || c = '．'

/-- The option/answer letter class `[A-E]`. -/
def isAE (c : Char) : Bool := c = 'A' || c = 'B' || c = 'C' || c = 'D' || c = 'E'

/-- Python regex class `\w` (word characters), over the characters occurring
in these documents: ASCII alphanumerics, underscore, and CJK ideographs. -/
def isPyWord (c : Char) : Bool := c.isAlphanum || c = '_' || isCJK c

/-- Python `int()` applied to a `\d+` capture. -/
def digitsVal (ds : Str) : Nat := ds.foldl (fun a c => a * 10 + (c.toNat - 48)) 0

/-- Python `str.strip()`: remove whitespace from both ends. -/
def pyStrip (s : Str) : Str :=
  ((s.dropWhile isPySpace).reverse.dropWhile isPySpace).reverse

/-- Match a literal at the current position; return the rest on success. -/
def lit (pat s : Str) : Option Str :=
  if pat.isPrefixOf s then some (s.drop pat.length) else none

/-- Leftmost-search driver: try the position matcher `f` at every position
(including the end-of-string position), return the first hit together with
its start index.  This is `re.search` for a pattern compiled to `f`. -/
def scanFirst (f : Str → Option α) : Str → Option (Nat × α)
  | [] => (f []).map (fun a => (0, a))
  | c :: rest =>
    match f (c :: rest) with
    | some a => some (0, a)
    | none => (scanFirst f rest).map (fun p => (p.1 + 1, p.2))

/-- Python `pat in s` substring test. -/
def containsSub (pat s : Str) : Bool := (scanFirst (lit pat) s).isSome

/-! ### Answer-region location (`_extract_answers_section`, lines 160-184)

The five `answer_markers` are tried in order with `re.search`; the first
that matches anywhere determines the start of the answer region; if none
matches, the region is `text[len(text)*3//5:]`. -/

/-- Search for the literal marker `参考答案及解析`. -/
def searchMarker1 (t : Str) : Option Nat :=
  (scanFirst (lit ( "参考答案及解析".data)) t).map Prod.fst

/-- Search for the literal marker `参考答案`. -/
def searchMarker2 (t : Str) : Option Nat :=
  (scanFirst (lit ( "参考答案".data)) t).map Prod.fst

/-- Search for the literal marker `答案及解析`. -/
def searchMarker3 (t : Str) : Option Nat :=
  (scanFirst (lit ( "答案及解析".data)) t).map Prod.fst

/-- Search for the literal marker `答案解析`. -/
def searchMarker4 (t : Str) : Option Nat :=
  (scanFirst (lit ( "答案解析".data)) t).map Prod.fst

/-- Position matcher for `一、单项选择题.*?答案`: the literal header followed,
on the same line (`.` does not cross newlines, no DOTALL flag), by `答案`. -/
def marker5At (s : Str) : Option Unit :=
  (lit ( "一、单项选择题".data) s).bind fun r =>
    if containsSub ( "答案".data) (r.takeWhile (fun c => c ≠ '\n')) then some () else none

/-- Search for the pattern `一、单项选择题.*?答案`. -/
def searchMarker5 (t : Str) : Option Nat :=
  (scanFirst marker5At t).map Prod.fst

/-- Lines 169-184 of `_extract_answers_section`: locate the answer region by
the first matching marker, else fall back to `text[len(text)*3//5:]`. -/
def extractAnswersRegion (t : Str) : Str :=
  match searchMarker1 t with
  | some i => t.drop i
  | none =>
    match searchMarker2 t with
    | some i => t.drop i
    | none =>
      match searchMarker3 t with
      | some i => t.drop i
      | none =>
        match searchMarker4 t with
        | some i => t.drop i
        | none =>
          match searchMarker5 t with
          | some i => t.drop i
          | none => t.drop (t.length * 3 / 5)

/-! ### Question segmentation (`_parse_questions`, lines 358-368)

`re.split` with the punctuated pattern `(?:^|\n)(\d+)[.、．]\s*` (no
MULTILINE flag, so `^` anchors only at position 0); if the resulting parts
list has fewer than 10 entries, the text is re-split with the
no-punctuation pattern `(?:^|\n)(\d+)(?=[一-龥])`. -/

/-- Match `(\d+)[.、．]\s*` at the current position (the `^`/`\n` anchor has
already been handled); return the digit capture and the number of
characters consumed by digits, punctuation and the greedy `\s*`. -/
def matchNumPunct (s : Str) : Option (Str × Nat) :=
  let ds := s.takeWhile Char.isDigit
  if ds = [] then none
  else
    match s.drop ds.length with
    | [] => none
    | c :: rest =>
      if isQPunct c then some (ds, ds.length + 1 + (rest.takeWhile isPySpace).length)
      else none

/-- Match `(\d+)(?=[一-龥])` at the current position.  The lookahead does
not consume; only the maximal digit run can be followed by a non-digit, so
backtracking over the greedy `\d+` never helps and the match is
deterministic. -/
def matchNumCJK (s : Str) : Option (Str × Nat) :=
  let ds := s.takeWhile Char.isDigit
  if ds = [] then none
  else
    match s.drop ds.length with
    | [] => none
    | c :: _ => if isCJK c then some (ds, ds.length) else none

/-- Scan for `\n`-anchored occurrences of the matcher `m`, Python
`re.split` style: each hit consumes the `\n`, the capture and the matched
tail; the text between hits is accumulated (`acc` holds the current
in-progress piece, reversed).  Returns the (piece, capture) pairs and the
trailing piece. -/
def splitScan (m : Str → Option (Str × Nat)) :
    Nat → Str → Str → List (Str × Str) × Str
  | 0, acc, s => ([], acc.reverse ++ s)
  | _ + 1, acc, [] => ([], acc.reverse)
  | fuel + 1, acc, c :: rest =>
    if c = '\n' then
      match m rest with
      | some (g, n) =>
        let res := splitScan m fuel [] (rest.drop n)
        ((acc.reverse, g) :: res.1, res.2)
      | none => splitScan m fuel (c :: acc) rest
    else splitScan m fuel (c :: acc) rest

/-- Python `re.split` with a pattern of the shape `(?:^|\n)(capture...)`:
the `^` alternative applies only at position 0.  Every scanning step
shortens the text, so `length + 1` fuel always suffices. -/
def pySplitAnchored (m : Str → Option (Str × Nat)) (s : Str) :
    List (Str × Str) × Str :=
  match m s with
  | some (g, n) => ((([] : Str), g) :: (splitScan m (s.length + 1) [] (s.drop n)).1,
                    (splitScan m (s.length + 1) [] (s.drop n)).2)
  | none => splitScan m (s.length + 1) [] s

/-- The Python parts list of a split: pieces and captures interleaved. -/
def partsOf (r : List (Str × Str) × Str) : List Str :=
  r.1.foldr (fun p acc => p.1 :: p.2 :: acc) [r.2]

/-- The punctuated (primary) question split. -/
def primarySegs (s : Str) : List (Str × Str) × Str := pySplitAnchored matchNumPunct s

/-- Parts list of the punctuated split. -/
def primaryParts (s : Str) : List Str := partsOf (primarySegs s)

/-- Number of matches of the punctuated recognizer. -/
def primaryCount (s : Str) : Nat := (primarySegs s).1.length

/-- The no-punctuation (fallback) question split. -/
def fallbackSegs (s : Str) : List (Str × Str) × Str := pySplitAnchored matchNumCJK s

/-- Parts list of the no-punctuation split. -/
def fallbackParts (s : Str) : List Str := partsOf (fallbackSegs s)

/-- Lines 360-368 of `_parse_questions`: the parts list actually used for
question segmentation. -/
def questionSegParts (s : Str) : List Str :=
  if (primaryParts s).length < 10 then fallbackParts s else primaryParts s

/-- A document with exactly five punctuated question markers. -/
def c2text : Str := ( "1.aa\n2.bb\n3.cc\n4.dd\n5.ee".data)

/-- A document whose question numbers carry no punctuation. -/
def c2unp : Str := ( "1根据aaa\n2根据bbb\n3根据ccc".data)

/-! ### Section headers (`_detect_question_type_ranges`, lines 389-419)

The three header regexes have the shape
`一、\s*单.*?选.*?题.*?共\s*(\d+)\s*题` (and analogously for `二、多…` and
`三、案例…`).  Without the DOTALL flag `.*?` cannot cross a newline, so
each lazy segment enumerates, in backtracking order, the occurrences of
its target character on the current line. -/

/-- For each occurrence of the character `c` before the first newline (the
candidates of a lazy `.*?c`, in the order backtracking tries them), the
suffix after that occurrence. -/
def lazyFinds (c : Char) : Str → List Str
  | [] => []
  | x :: rest =>
    if x = '\n' then []
    else if x = c then rest :: lazyFinds c rest
    else lazyFinds c rest

/-- Match `\s*(\d+)\s*题` (the tail of a header regex after `共`).  `\s*`
is greedy and deterministic here because neither digits nor `题` are
whitespace. -/
def countTail (r : Str) : Option Nat :=
  let r1 := r.dropWhile isPySpace
  let ds := r1.takeWhile Char.isDigit
  if ds = [] then none
  else
    match (r1.drop ds.length).dropWhile isPySpace with
    | [] => none
    | c :: _ => if c = '题' then some (digitsVal ds) else none

/-- Match a chain `.*?k₁.*?k₂…` followed by `共`-tail extraction, trying
lazy candidates in backtracking order. -/
def headerNumAfter : List Char → Str → Option Nat
  | [], r => countTail r
  | k :: ks, r => (lazyFinds k r).findSome? (headerNumAfter ks)

/-- Position matcher for `一、\s*单.*?选.*?题.*?共\s*(\d+)\s*题`. -/
def singleHeaderAt (s : Str) : Option Nat :=
  (lit ( "一、".data) s).bind fun r =>
    (lit ( "单".data) (r.dropWhile isPySpace)).bind fun r2 =>
      headerNumAfter [ '选', '题', '共' ] r2

/-- Position matcher for `二、\s*多.*?选.*?题.*?共\s*(\d+)\s*题`. -/
def multiHeaderAt (s : Str) : Option Nat :=
  (lit ( "二、".data) s).bind fun r =>
    (lit ( "多".data) (r.dropWhile isPySpace)).bind fun r2 =>
      headerNumAfter [ '选', '题', '共' ] r2

/-- Position matcher for `三、\s*案例.*?题.*?共\s*(\d+)\s*题`. -/
def caseHeaderAt (s : Str) : Option Nat :=
  (lit ( "三、".data) s).bind fun r =>
    (lit ( "案例".data) (r.dropWhile isPySpace)).bind fun r2 =>
      headerNumAfter [ '题', '共' ] r2

/-- `re.search` for the single-choice header; returns the declared count. -/
def findSingleHeader (t : Str) : Option Nat := (scanFirst singleHeaderAt t).map Prod.snd

/-- `re.search` for the multi-choice header; returns the declared count. -/
def findMultiHeader (t : Str) : Option Nat := (scanFirst multiHeaderAt t).map Prod.snd

/-- `re.search` for the case-study header; returns the declared count. -/
def findCaseHeader (t : Str) : Option Nat := (scanFirst caseHeaderAt t).map Prod.snd

/-- `type_ranges.get(key, (0,0))[1]` on the insertion-ordered dict,
modelled as an association list. -/
def rangesGetEnd (tr : List (Str × (Nat × Nat))) (k : Str) : Nat :=
  match tr.find? (fun p => p.1 == k) with
  | some p => p.2.2
  | none => 0

/-- `_detect_question_type_ranges`: build the type-range dict from the
three header searches. -/
def detectQuestionTypeRanges (t : Str) : List (Str × (Nat × Nat)) :=
  let tr1 : List (Str × (Nat × Nat)) :=
    match findSingleHeader t with
    | some n => [(( "单选题".data), (1, n))]
    | none => []
  let tr2 :=
    match findMultiHeader t with
    | some n =>
      let se := rangesGetEnd tr1 ( "单选题".data)
      tr1 ++ [(( "多选题".data), (se + 1, se + n))]
    | none => tr1
  match findCaseHeader t with
  | some n =>
    let me0 := rangesGetEnd tr2 ( "多选题".data)
    let me1 := if me0 = 0 then rangesGetEnd tr2 ( "单选题".data) else me0
    tr2 ++ [(( "案例题".data), (me1 + 1, me1 + n))]
  | none => tr2

/-! ### Answer maps

Python's `answers` dict maps question numbers to `{'answer': …,
'analysis': …}` sub-dicts; we model it as an insertion-ordered association
list of records. -/

/-- One `answers[num]` sub-dict. -/
structure AnsEntry where
  answer : Option Str := none
  analysis : Option Str := none
deriving DecidableEq

/-- The insertion-ordered `answers` dict. -/
abbrev AnsMap := List (Nat × AnsEntry)

/-- `answers[n]` lookup. -/
def lookupEntry (m : AnsMap) (n : Nat) : Option AnsEntry :=
  (m.find? (fun p => p.1 == n)).map Prod.snd

/-- In-place update of the entry at key `n` (dict insertion order kept). -/
def updateEntry (m : AnsMap) (n : Nat) (e : AnsEntry) : AnsMap :=
  m.map (fun p => if p.1 = n then (n, e) else p)

/-- The keys of an answer map, in insertion order. -/
def ansKeys (m : AnsMap) : List Nat := m.map Prod.fst

/-- `answers[n]['answer']` if present. -/
def lookupAnswer (m : AnsMap) (n : Nat) : Option Str :=
  (lookupEntry m n).bind (fun e => e.answer)

/-! ### Spaced answer layout (`_try_extract_spaced_answers`, lines 251-324) -/

/-- Generic `re.finditer` driver: scan left to right; a hit yields a value
and its consumed length and scanning resumes after the match; a miss
advances one position.  Fueled by text length (every step shortens the
text). -/
def findAllScan (f : Str → Option (α × Nat)) : Nat → Str → List α
  | 0, _ => []
  | _ + 1, [] => []
  | fuel + 1, c :: rest =>
    match f (c :: rest) with
    | some (a, n) => a :: findAllScan f fuel ((c :: rest).drop (max n 1))
    | none => findAllScan f fuel rest

/-- `re.findall` over a whole string. -/
def pyFindAll (f : Str → Option (α × Nat)) (s : Str) : List α :=
  findAllScan f (s.length + 1) s

/-- `.*?\n` under DOTALL: lazily consume up to and including the first
newline. -/
def dotallToNewline : Str → Option Str
  | [] => none
  | c :: rest => if c = '\n' then some rest else dotallToNewline rest

/-- Lazy `(.*?)` bounded by a lookahead alternation of literal stops or `$`
(no MULTILINE: `$` holds at the end or just before a trailing newline):
the capture runs to the earliest stop position. -/
def lazyGroupUntil (stops : List Str) : Str → Str
  | [] => []
  | c :: rest =>
    if stops.any (fun p => p.isPrefixOf (c :: rest)) then []
    else if c = '\n' && rest.isEmpty then []
    else c :: lazyGroupUntil stops rest

/-- Position matcher for `一、\s*单项选择题.*?\n(.*?)(?=二、|三、|$)`
(DOTALL). -/
def singleRegionAt (s : Str) : Option Str :=
  (lit ( "一、".data) s).bind fun r =>
    (lit ( "单项选择题".data) (r.dropWhile isPySpace)).bind fun r2 =>
      (dotallToNewline r2).map (lazyGroupUntil [( "二、".data), ( "三、".data)])

/-- Position matcher for `二、\s*多项选择题.*?\n(.*?)(?=三、|$)` (DOTALL). -/
def multiRegionAt (s : Str) : Option Str :=
  (lit ( "二、".data) s).bind fun r =>
    (lit ( "多项选择题".data) (r.dropWhile isPySpace)).bind fun r2 =>
      (dotallToNewline r2).map (lazyGroupUntil [( "三、".data)])

/-- `re.search` for the single-choice answer sub-region. -/
def findSingleRegion (t : Str) : Option Str := (scanFirst singleRegionAt t).map Prod.snd

/-- `re.search` for the multi-choice answer sub-region. -/
def findMultiRegion (t : Str) : Option Str := (scanFirst multiRegionAt t).map Prod.snd

/-- Position matcher for `(\d+)\s+([A-E])\b`: number, spaces, one letter,
word boundary (the next character must not be a word character). -/
def numLetterAt (s : Str) : Option ((Nat × Str) × Nat) :=
  let ds := s.takeWhile Char.isDigit
  if ds = [] then none
  else
    let r1 := s.drop ds.length
    let sp := r1.takeWhile isPySpace
    if sp = [] then none
    else
      match r1.drop sp.length with
      | [] => none
      | c :: rest =>
        if isAE c then
          match rest with
          | [] => some ((digitsVal ds, [c]), ds.length + sp.length + 1)
          | d :: _ =>
            if isPyWord d then none
            else some ((digitsVal ds, [c]), ds.length + sp.length + 1)
        else none

/-- Position matcher for `(\d+)\s+([A-E]{2,})\b`: number, spaces, two or
more letters (greedy; shorter splits leave a letter after the group, which
is a word character, so only the maximal run can satisfy `\b`). -/
def numLettersAt (s : Str) : Option ((Nat × Str) × Nat) :=
  let ds := s.takeWhile Char.isDigit
  if ds = [] then none
  else
    let r1 := s.drop ds.length
    let sp := r1.takeWhile isPySpace
    if sp = [] then none
    else
      let r2 := r1.drop sp.length
      let ls := r2.takeWhile isAE
      if ls.length < 2 then none
      else
        match r2.drop ls.length with
        | [] => some ((digitsVal ds, ls), ds.length + sp.length + ls.length)
        | d :: _ =>
          if isPyWord d then none
          else some ((digitsVal ds, ls), ds.length + sp.length + ls.length)

/-- The `(\d+)\s+([A-E])\b` pairs of the single-choice sub-region (empty
when the sub-region is absent). -/
def singleAnswerPairs (s : Str) : List (Nat × Str) :=
  match findSingleRegion s with
  | some r => pyFindAll numLetterAt r
  | none => []

/-- The `(\d+)\s+([A-E]{2,})\b` pairs of the multi-choice sub-region
(empty when the sub-region is absent). -/
def multiAnswerPairs (s : Str) : List (Nat × Str) :=
  match findMultiRegion s with
  | some r => pyFindAll numLettersAt r
  | none => []

/-- One iteration of the spaced-layout insertion loop: create the entry
(counting it as newly found) when the key is absent, then set its
`'answer'` field. -/
def spacedInsert (mc : AnsMap × Nat) (p : Nat × Str) : AnsMap × Nat :=
  match lookupEntry mc.1 p.1 with
  | some e => (updateEntry mc.1 p.1 { e with answer := some p.2 }, mc.2)
  | none => (mc.1 ++ [(p.1, { answer := some p.2, analysis := none })], mc.2 + 1)

/-- One iteration of the `max_single` loop (lines 307-309): keep the key
when its `'answer'` value exists and has exactly one letter. -/
def maxSingleStep (acc : Nat) (p : Nat × AnsEntry) : Nat :=
  match p.2.answer with
  | some a => if a.length = 1 then max acc p.1 else acc
  | none => acc

/-- Lines 306-309: the maximum key whose `'answer'` value has exactly one
letter (`0` when there is none). -/
def maxSingleOf (m : AnsMap) : Nat := m.foldl maxSingleStep 0

/-- The answer map and new-entry count after the single-choice phase of
`_try_extract_spaced_answers`. -/
def spacedSingleMap (s : Str) : AnsMap × Nat :=
  (singleAnswerPairs s).foldl spacedInsert ([], 0)

/-- `_try_extract_spaced_answers`: single-choice pairs are inserted at
their own numbers; multi-choice pairs are inserted at
`max_single + number`; the second component counts newly created
entries (the function's Python return value is `count > 0`). -/
def tryExtractSpacedAnswers (s : Str) : AnsMap × Nat :=
  let mc1 := spacedSingleMap s
  (multiAnswerPairs s).foldl
    (fun mc p => spacedInsert mc (maxSingleOf mc1.1 + p.1, p.2)) mc1

/-! ### The seven punctuation/label answer patterns
(`_extract_answers_section`, lines 199-229) -/

/-- The capture class `[A-E,，]`. -/
def isAEComma (c : Char) : Bool := isAE c || c = ',' || c = '，'

/-- A Chinese or ASCII colon (`[：:]`). -/
def litColon : Str → Option Str
  | [] => none
  | c :: rest => if c = '：' || c = ':' then some rest else none

/-- Cleaning applied to a captured answer (lines 216-221): strip, drop
commas/spaces/newlines, keep only the letters A-E. -/
def cleanAnswerCapture (a : Str) : Str :=
  ((pyStrip a).filter
    (fun c => !(c = ',' || c = '，' || c = ' ' || c = '\n'))).filter isAE

/-- Position matcher for `(\d+)[.、．]\s*【答案】\s*([A-E,，]+)`. -/
def sevenP1At (s : Str) : Option ((Nat × Str) × Nat) :=
  let ds := s.takeWhile Char.isDigit
  if ds = [] then none
  else
    match s.drop ds.length with
    | [] => none
    | c :: r1 =>
      if isQPunct c then
        match lit ( "【答案】".data) (r1.dropWhile isPySpace) with
        | none => none
        | some r3 =>
          let r4 := r3.dropWhile isPySpace
          let ls := r4.takeWhile isAEComma
          if ls = [] then none
          else some ((digitsVal ds, ls), s.length - (r4.length - ls.length))
      else none

/-- Position matcher for `(\d+)[.、．]\s*答案[：:]\s*([A-E,，]+)`. -/
def sevenP2At (s : Str) : Option ((Nat × Str) × Nat) :=
  let ds := s.takeWhile Char.isDigit
  if ds = [] then none
  else
    match s.drop ds.length with
    | [] => none
    | c :: r1 =>
      if isQPunct c then
        match (lit ( "答案".data) (r1.dropWhile isPySpace)).bind litColon with
        | none => none
        | some r3 =>
          let r4 := r3.dropWhile isPySpace
          let ls := r4.takeWhile isAEComma
          if ls = [] then none
          else some ((digitsVal ds, ls), s.length - (r4.length - ls.length))
      else none

/-- Position matcher for `(\d+)\s*参考答案[：:]\s*([A-E,，\s]+)`.  The
capture class also contains `\s`; when the characters after the greedy
`\s*` are not in the class, backtracking hands the last whitespace
character to the capture. -/
def sevenP3At (s : Str) : Option ((Nat × Str) × Nat) :=
  let ds := s.takeWhile Char.isDigit
  if ds = [] then none
  else
    match (lit ( "参考答案".data) ((s.drop ds.length).dropWhile isPySpace)).bind litColon with
    | none => none
    | some r3 =>
      let w := r3.takeWhile isPySpace
      let r4 := r3.drop w.length
      let g := r4.takeWhile (fun c => isAEComma c || isPySpace c)
      if g ≠ [] then some ((digitsVal ds, g), s.length - (r4.length - g.length))
      else
        match w.getLast? with
        | some c => some ((digitsVal ds, [c]), s.length - r4.length)
        | none => none

/-- Position matcher for `【(\d+)】\s*答案[：:]\s*([A-E,，]+)`. -/
def sevenP4At (s : Str) : Option ((Nat × Str) × Nat) :=
  match lit ( "【".data) s with
  | none => none
  | some r0 =>
    let ds := r0.takeWhile Char.isDigit
    if ds = [] then none
    else
      match lit ( "】".data) (r0.drop ds.length) with
      | none => none
      | some r1 =>
        match (lit ( "答案".data) (r1.dropWhile isPySpace)).bind litColon with
        | none => none
        | some r3 =>
          let r4 := r3.dropWhile isPySpace
          let ls := r4.takeWhile isAEComma
          if ls = [] then none
          else some ((digitsVal ds, ls), s.length - (r4.length - ls.length))

/-- Position matcher for `(\d+)[.、．]\s*\[答案\]\s*([A-E,，]+)`. -/
def sevenP5At (s : Str) : Option ((Nat × Str) × Nat) :=
  let ds := s.takeWhile Char.isDigit
  if ds = [] then none
  else
    match s.drop ds.length with
    | [] => none
    | c :: r1 =>
      if isQPunct c then
        match lit ( "[答案]".data) (r1.dropWhile isPySpace) with
        | none => none
        | some r3 =>
          let r4 := r3.dropWhile isPySpace
          let ls := r4.takeWhile isAEComma
          if ls = [] then none
          else some ((digitsVal ds, ls), s.length - (r4.length - ls.length))
      else none

/-- The lookahead `(?=\s+\d+\s+[A-E]+|\s*\n)` of the spaced newline
pattern. -/
def p6Look (r : Str) : Bool :=
  (let w1 := r.takeWhile isPySpace
   if w1 = [] then false
   else
     let d := (r.drop w1.length).takeWhile Char.isDigit
     if d = [] then false
     else
       let r2 := (r.drop w1.length).drop d.length
       let w2 := r2.takeWhile isPySpace
       if w2 = [] then false
       else !((r2.drop w2.length).takeWhile isAE).isEmpty) ||
  (r.takeWhile isPySpace).contains '\n'

/-- Body of `(?:^|\n)(\d+)\s+([A-E]+)(?=…)` after the anchor: number,
spaces, greedy letters (shorter splits leave a letter, a word character,
after the group and make both lookahead branches fail, so the maximal run
is the only candidate), then the lookahead. -/
def p6Body (s : Str) : Option ((Nat × Str) × Nat) :=
  let ds := s.takeWhile Char.isDigit
  if ds = [] then none
  else
    let r1 := s.drop ds.length
    let w := r1.takeWhile isPySpace
    if w = [] then none
    else
      let r2 := r1.drop w.length
      let ls := r2.takeWhile isAE
      if ls = [] then none
      else
        if p6Look (r2.drop ls.length) then
          some ((digitsVal ds, ls), ds.length + w.length + ls.length)
        else none

/-- Scanner for pattern 6, `(?:^|\n)(\d+)\s+([A-E]+)(?=…)` with MULTILINE:
`^` holds at position 0 and right after every newline without consuming;
the `\n` alternative consumes the newline. -/
def p6Scan : Nat → Bool → Str → List (Nat × Str)
  | 0, _, _ => []
  | _ + 1, _, [] => []
  | fuel + 1, atLS, c :: rest =>
    if atLS then
      match p6Body (c :: rest) with
      | some (p, n) => p :: p6Scan fuel false ((c :: rest).drop (max n 1))
      | none =>
        if c = '\n' then
          match p6Body rest with
          | some (p, n) => p :: p6Scan fuel false (rest.drop (max n 1))
          | none => p6Scan fuel true rest
        else p6Scan fuel false rest
    else
      if c = '\n' then
        match p6Body rest with
        | some (p, n) => p :: p6Scan fuel false (rest.drop (max n 1))
        | none => p6Scan fuel true rest
      else p6Scan fuel false rest

/-- Index of the last newline of a whitespace run (for greedy `\s*`
followed by a required `\n`). -/
def lastNlIdx (w : Str) : Option Nat :=
  match w.reverse.findIdx? (fun c => c = '\n') with
  | some j => some (w.length - 1 - j)
  | none => none

/-- Consumed length of `\s*(?:\n|【解析】)` at `r`, greedy `\s*` first:
the maximal whitespace prefix followed by `【解析】`, else the last newline
inside the whitespace prefix. -/
def p7TailEnd (r : Str) : Option Nat :=
  let w := r.takeWhile isPySpace
  match lit ( "【解析】".data) (r.drop w.length) with
  | some _ => some (w.length + 4)
  | none =>
    match lastNlIdx w with
    | some i => some (i + 1)
    | none => none

/-- Position matcher for `(\d+)[.、．]\s*([A-E]+)\s*(?:\n|【解析】)`. -/
def sevenP7At (s : Str) : Option ((Nat × Str) × Nat) :=
  let ds := s.takeWhile Char.isDigit
  if ds = [] then none
  else
    match s.drop ds.length with
    | [] => none
    | c :: r1 =>
      if isQPunct c then
        let r2 := r1.dropWhile isPySpace
        let ls := r2.takeWhile isAE
        if ls = [] then none
        else
          match p7TailEnd (r2.drop ls.length) with
          | some k => some ((digitsVal ds, ls), s.length - (r2.length - ls.length) + k)
          | none => none
      else none

/-- Matches of pattern 1 (`【答案】` format). -/
def sevenP1Matches (s : Str) : List (Nat × Str) := pyFindAll sevenP1At s

/-- Matches of pattern 2 (`答案：` format). -/
def sevenP2Matches (s : Str) : List (Nat × Str) := pyFindAll sevenP2At s

/-- Matches of pattern 3 (`参考答案：` format). -/
def sevenP3Matches (s : Str) : List (Nat × Str) := pyFindAll sevenP3At s

/-- Matches of pattern 4 (`【题号】答案：` format). -/
def sevenP4Matches (s : Str) : List (Nat × Str) := pyFindAll sevenP4At s

/-- Matches of pattern 5 (`[答案]` format). -/
def sevenP5Matches (s : Str) : List (Nat × Str) := pyFindAll sevenP5At s

/-- Matches of pattern 6 (newline spaced format). -/
def sevenP6Matches (s : Str) : List (Nat × Str) := p6Scan (s.length + 1) true s

/-- Matches of pattern 7 (simple format). -/
def sevenP7Matches (s : Str) : List (Nat × Str) := pyFindAll sevenP7At s

/-- One iteration of the seven-pattern insertion loop (lines 214-227):
clean the capture; an empty cleaned answer changes nothing; otherwise the
entry is created if absent and its `'answer'` field is overwritten. -/
def sevenInsert (m : AnsMap) (p : Nat × Str) : AnsMap :=
  let a := cleanAnswerCapture p.2
  if a = [] then m
  else
    match lookupEntry m p.1 with
    | some e => updateEntry m p.1 { e with answer := some a }
    | none => m ++ [(p.1, { answer := some a, analysis := none })]

/-- The seven match lists in pattern order. -/
def allSevenMatches (s : Str) : List (Nat × Str) :=
  sevenP1Matches s ++ sevenP2Matches s ++ sevenP3Matches s ++
  sevenP4Matches s ++ sevenP5Matches s ++ sevenP6Matches s ++ sevenP7Matches s

/-- The seven-pattern phase: every pattern's matches are folded into the
map, in pattern order then match order. -/
def sevenPhase (s : Str) : AnsMap :=
  [sevenP1Matches s, sevenP2Matches s, sevenP3Matches s, sevenP4Matches s,
   sevenP5Matches s, sevenP6Matches s, sevenP7Matches s].foldl
    (fun m ms => ms.foldl sevenInsert m) []

/-! ### Analysis extraction (`_extract_answers_section`, lines 231-248)

Pattern `(\d+)[.、．]\s*【解析】(.*?)(?=\d+[.、．]|$)` under
MULTILINE and DOTALL: with MULTILINE `$` also holds before every newline,
so the lazy capture stops at the first `\d+[.、．]`, newline, or end.  The
second analysis pattern has a single group and is discarded by the
`len(match.groups()) == 2` guard in the loop, so it never contributes. -/

/-- Does `\d+[.、．]` match at this position? -/
def startsNumPunct (s : Str) : Bool :=
  let ds := s.takeWhile Char.isDigit
  if ds = [] then false
  else
    match s.drop ds.length with
    | [] => false
    | c :: _ => isQPunct c

/-- The lazy analysis capture: up to the first number-punct marker,
newline, or the end. -/
def analysisGroupLazy : Str → Str
  | [] => []
  | c :: rest =>
    if startsNumPunct (c :: rest) then []
    else if c = '\n' then []
    else c :: analysisGroupLazy rest

/-- Position matcher for `(\d+)[.、．]\s*【解析】(.*?)(?=\d+[.、．]|$)`. -/
def analysisP1At (s : Str) : Option ((Nat × Str) × Nat) :=
  let ds := s.takeWhile Char.isDigit
  if ds = [] then none
  else
    match s.drop ds.length with
    | [] => none
    | c :: r1 =>
      if isQPunct c then
        match lit ( "【解析】".data) (r1.dropWhile isPySpace) with
        | none => none
        | some r3 =>
          let g := analysisGroupLazy r3
          some ((digitsVal ds, g), s.length - (r3.length - g.length))
      else none

/-- Matches of the two-group analysis pattern. -/
def analysisP1Matches (s : Str) : List (Nat × Str) := pyFindAll analysisP1At s

/-- `re.sub(r'\s+', ' ', s)`: collapse whitespace runs to single spaces. -/
def collapseWsAux : Bool → Str → Str
  | _, [] => []
  | prevWs, c :: rest =>
    if isPySpace c then
      if prevWs then collapseWsAux true rest
      else ' ' :: collapseWsAux true rest
    else c :: collapseWsAux false rest

/-- `re.sub(r'\s+', ' ', s)`. -/
def collapseWs (s : Str) : Str := collapseWsAux false s

/-- One iteration of the analysis loop (lines 239-247): attach the cleaned
capture, truncated to 500 characters, to an already-known number;
unknown numbers are dropped. -/
def analysisInsert (m : AnsMap) (p : Nat × Str) : AnsMap :=
  match lookupEntry m p.1 with
  | some e => updateEntry m p.1 { e with analysis := some ((collapseWs (pyStrip p.2)).take 500) }
  | none => m

/-- `_extract_answers_section`: locate the region; if the spaced layout
found anything it is returned as-is, otherwise the seven patterns and then
the analysis pass run over the region. -/
def extractAnswersSection (t : Str) : AnsMap :=
  let region := extractAnswersRegion t
  let mc := tryExtractSpacedAnswers region
  if mc.2 > 0 then mc.1
  else (analysisP1Matches region).foldl analysisInsert (sevenPhase region)

/-- The latest match for question `n` whose cleaned capture is non-empty
(later patterns and later matches take precedence). -/
def lastAnswerFor (ms : List (Nat × Str)) (n : Nat) : Option Str :=
  match ms with
  | [] => none
  | p :: rest =>
    match lastAnswerFor rest n with
    | some a => some a
    | none =>
      if p.1 = n ∧ cleanAnswerCapture p.2 ≠ [] then some (cleanAnswerCapture p.2)
      else none

/-! ### Question parsing (`_parse_questions`, `_parse_single_question`,
`_extract_question_and_options`, `_extract_answer`, `_extract_analysis`) -/

/-- Position matcher for the case-section regex
`三、\s*案例.*?题.*?(?=参考答案|$)` (DOTALL): the lazy `.` crosses
newlines, and the trailing lookahead always succeeds at the end of the
string, so the match succeeds exactly when some `题` follows `案例`. -/
def caseSectionAt (s : Str) : Option Unit :=
  (lit ( "三、".data) s).bind fun r =>
    (lit ( "案例".data) (r.dropWhile isPySpace)).bind fun r2 =>
      if r2.contains '题' then some () else none

/-- `re.search` start index of the case section. -/
def findCaseSection (t : Str) : Option Nat := (scanFirst caseSectionAt t).map Prod.fst

/-- One of the Chinese numerals 一 to 五. -/
def isCn5 (c : Char) : Bool := c = '一' || c = '二' || c = '三' || c = '四' || c = '五'

/-- Position matcher for `[（(][一二三四五][）)]`. -/
def caseAnswerMarkAt (s : Str) : Option Unit :=
  match s with
  | a :: b :: c :: _ =>
    if (a = '（' || a = '(') && isCn5 b && (c = '）' || c = ')') then some () else none
  | _ => none

/-- `re.search` start index of a case-answer bracket marker. -/
def searchCaseAnswerMark (t : Str) : Option Nat :=
  (scanFirst caseAnswerMarkAt t).map Prod.fst

/-- Lines 334-354 of `_parse_questions`: excise the case section; when a
`参考答案` marker exists, re-attach the answer region up to the first
case-answer bracket. -/
def mainTextOf (t : Str) : Str :=
  match findCaseSection t with
  | none => t
  | some i =>
    let base := t.take i
    match searchMarker2 t with
    | none => base
    | some j =>
      let answerText := t.drop j
      match searchCaseAnswerMark answerText with
      | some k => base ++ answerText.take k
      | none => base ++ answerText

/-- Position matcher for a question-type mark
`[（【](?:单选题|多选题|案例题)[）】]` (five characters). -/
def typeMarkAt (s : Str) : Option Nat :=
  match s with
  | a :: b :: c :: d :: e :: _ =>
    if (a = '（' || a = '【') &&
       ([b, c, d] = ( "单选题".data) || [b, c, d] = ( "多选题".data) ||
        [b, c, d] = ( "案例题".data)) &&
       (e = '）' || e = '】') then some 5 else none
  | _ => none

/-- `re.sub(pattern, '', text)`: delete every non-overlapping match. -/
def pySubRemove (f : Str → Option Nat) : Nat → Str → Str
  | 0, s => s
  | _ + 1, [] => []
  | fuel + 1, c :: rest =>
    match f (c :: rest) with
    | some n => pySubRemove f fuel ((c :: rest).drop (max n 1))
    | none => c :: pySubRemove f fuel rest

/-- Line 465: remove the type marks from a segment. -/
def removeTypeMarks (s : Str) : Str := pySubRemove typeMarkAt (s.length + 1) s

/-- Position-tracking `re.finditer` driver: yields (start, value, end). -/
def findAllPosScan (f : Str → Option (α × Nat)) :
    Nat → Nat → Str → List (Nat × α × Nat)
  | 0, _, _ => []
  | _ + 1, _, [] => []
  | fuel + 1, pos, c :: rest =>
    match f (c :: rest) with
    | some (a, n) =>
      (pos, a, pos + n) :: findAllPosScan f fuel (pos + max n 1) ((c :: rest).drop (max n 1))
    | none => findAllPosScan f fuel (pos + 1) rest

/-- `re.finditer` with match positions. -/
def pyFindAllPos (f : Str → Option (α × Nat)) (s : Str) : List (Nat × α × Nat) :=
  findAllPosScan f (s.length + 1) 0 s

/-- Position matcher for an option marker `\n\s*([A-E])[.、．]`. -/
def optMarkAt (s : Str) : Option (Char × Nat) :=
  match s with
  | [] => none
  | c :: rest =>
    if c = '\n' then
      let w := rest.takeWhile isPySpace
      match rest.drop w.length with
      | l :: p :: _ =>
        if isAE l && isQPunct p then some (l, 1 + w.length + 2) else none
      | _ => none
    else none

/-- Position matcher for the option-value truncation alternation
`答案[：:]|解析[：:]|【答案】|【解析】`. -/
def ansSplitMarkAt (s : Str) : Option Unit :=
  if ((lit ( "答案".data) s).bind litColon).isSome then some ()
  else if ((lit ( "解析".data) s).bind litColon).isSome then some ()
  else if ( "【答案】".data).isPrefixOf s then some ()
  else if ( "【解析】".data).isPrefixOf s then some ()
  else none

/-- `re.split(alternation, s)[0]`: the text before the earliest marker. -/
def splitFirstPart (s : Str) : Str :=
  match scanFirst ansSplitMarkAt s with
  | some p => s.take p.1
  | none => s

/-- Python-dict insertion into the options mapping. -/
def optsInsert (os : List (Char × Str)) (k : Char) (v : Str) : List (Char × Str) :=
  if os.any (fun p => p.1 == k) then os.map (fun p => if p.1 = k then (k, v) else p)
  else os ++ [(k, v)]

/-- Lines 476-485: slice each option's value between its own marker end
and the next marker start (or the end of the segment), strip it, and
truncate it at the first embedded answer/analysis marker. -/
def extractOpts (t : Str) : List (Nat × Char × Nat) → List (Char × Str) → List (Char × Str)
  | [], os => os
  | m :: rest, os =>
    let stop := match rest with | m2 :: _ => m2.1 | [] => t.length
    let otext := pyStrip ((t.take stop).drop m.2.2)
    let otext2 := pyStrip (splitFirstPart otext)
    extractOpts t rest (optsInsert os m.2.1 otext2)

/-- `_extract_question_and_options`: the stem is the text before the first
option marker; without option markers the whole segment is the stem. -/
def extractQuestionAndOptions (text : Str) : Str × List (Char × Str) :=
  let t := removeTypeMarks text
  match pyFindAllPos optMarkAt t with
  | [] => (pyStrip t, [])
  | first :: rest => (pyStrip (t.take first.1), extractOpts t (first :: rest) [])

/-- Inline answer pattern `答案[：:]\s*([A-E]+)` at a position. -/
def answerPat1 (s : Str) : Option Str :=
  ((lit ( "答案".data) s).bind litColon).bind fun r =>
    let r2 := r.dropWhile isPySpace
    let ls := r2.takeWhile isAE
    if ls = [] then none else some ls

/-- Inline answer pattern `【答案】\s*([A-E]+)` at a position. -/
def answerPat2 (s : Str) : Option Str :=
  (lit ( "【答案】".data) s).bind fun r =>
    let r2 := r.dropWhile isPySpace
    let ls := r2.takeWhile isAE
    if ls = [] then none else some ls

/-- Inline answer pattern `正确答案[：:]\s*([A-E]+)` at a position. -/
def answerPat3 (s : Str) : Option Str :=
  ((lit ( "正确答案".data) s).bind litColon).bind fun r =>
    let r2 := r.dropWhile isPySpace
    let ls := r2.takeWhile isAE
    if ls = [] then none else some ls

/-- Inline answer pattern `\n\s*([A-E]+)\s*(?:正确|√)` at a position. -/
def answerPat4 (s : Str) : Option Str :=
  match s with
  | [] => none
  | c :: rest =>
    if c = '\n' then
      let r := rest.dropWhile isPySpace
      let ls := r.takeWhile isAE
      if ls = [] then none
      else
        let r2 := (r.drop ls.length).dropWhile isPySpace
        if ( "正确".data).isPrefixOf r2 || ( "√".data).isPrefixOf r2 then some ls
        else none
    else none

/-- `_extract_answer`: the four inline answer patterns, first hit wins. -/
def extractAnswer (text : Str) : Option Str :=
  match scanFirst answerPat1 text with
  | some p => some p.2
  | none =>
    match scanFirst answerPat2 text with
    | some p => some p.2
    | none =>
      match scanFirst answerPat3 text with
      | some p => some p.2
      | none =>
        match scanFirst answerPat4 text with
        | some p => some p.2
        | none => none

/-- Does `\n\d+[.、．]` start at this position? -/
def analysisStopA (s : Str) : Bool :=
  match s with
  | c :: rest => c = '\n' && startsNumPunct rest
  | [] => false

/-- Lazy capture `(.*?)(?=\n\d+[.、．]|$)` under DOTALL (no MULTILINE):
runs to the earliest next-question marker or to `$` (end, or just before
a trailing newline). -/
def lazyUntilNextQ : Str → Str
  | [] => []
  | c :: rest =>
    if analysisStopA (c :: rest) then []
    else if c = '\n' && rest.isEmpty then []
    else c :: lazyUntilNextQ rest

/-- Inline analysis pattern `解析[：:](.*?)(?=\n\d+[.、．]|$)` at a
position. -/
def qAnalysisPat1 (s : Str) : Option Str :=
  ((lit ( "解析".data) s).bind litColon).map lazyUntilNextQ

/-- Inline analysis pattern `【解析】(.*?)(?=\n\d+[.、．]|$)` at a
position. -/
def qAnalysisPat2 (s : Str) : Option Str :=
  (lit ( "【解析】".data) s).map lazyUntilNextQ

/-- Inline analysis pattern `答案解析[：:](.*?)(?=\n\d+[.、．]|$)` at a
position. -/
def qAnalysisPat3 (s : Str) : Option Str :=
  ((lit ( "答案解析".data) s).bind litColon).map lazyUntilNextQ

/-- `_extract_analysis`: the three analysis patterns, first hit wins. -/
def extractAnalysis (text : Str) : Option Str :=
  match scanFirst qAnalysisPat1 text with
  | some p => some (pyStrip p.2)
  | none =>
    match scanFirst qAnalysisPat2 text with
    | some p => some (pyStrip p.2)
    | none =>
      match scanFirst qAnalysisPat3 text with
      | some p => some (pyStrip p.2)
      | none => none

/-- `_is_multi_choice`: the inline answer has more than one letter. -/
def isMultiChoiceTxt (text : Str) : Bool :=
  match scanFirst answerPat1 text with
  | some p => p.2.length > 1
  | none => false

/-- The extracted question entity (`ExamQuestion.to_dict`). -/
structure Question where
  number : Nat
  qtype : Str
  question : Str
  options : List (Char × Str)
  answer : Option Str
  analysis : Option Str
  knowledgePoints : List Str
  difficulty : Option Str
deriving DecidableEq

/-- Lines 427-431: the first type range containing the number. -/
def typeFromRanges (tr : List (Str × (Nat × Nat))) (n : Nat) : Option Str :=
  (tr.find? (fun p => p.2.1 ≤ n && n ≤ p.2.2)).map Prod.fst

/-- `_parse_single_question`: classify by range, else by text heuristics;
extract stem/options, inline answer and inline analysis; reject segments
with an empty stem. -/
def parseSingleQuestion (num : Str) (text : Str)
    (tr : List (Str × (Nat × Nat))) : Option Question :=
  let number := digitsVal num
  let ty :=
    match typeFromRanges tr number with
    | some ty => ty
    | none =>
      if containsSub ( "（多选题）".data) text || containsSub ( "【多选题】".data) text ||
         isMultiChoiceTxt text then ( "多选题".data)
      else if containsSub ( "（案例题）".data) text ||
              containsSub ( "【案例题】".data) text ||
              containsSub ( "背景资料".data) text then ( "案例题".data)
      else ( "单选题".data)
  let qo := extractQuestionAndOptions text
  if qo.1 = ([] : Str) then none
  else some { number := number, qtype := ty, question := qo.1, options := qo.2,
              answer := extractAnswer text, analysis := extractAnalysis text,
              knowledgePoints := [], difficulty := none }

/-- The `(number, segment)` pairs read off the Python parts list
(`parts[i], parts[i+1]` for odd `i`). -/
def pairsAux : List (Str × Str) → Str → List (Str × Str)
  | [], _ => []
  | [(_, g)], tail => [(g, tail)]
  | (_, g) :: (p2, g2) :: rest, tail => (g, p2) :: pairsAux ((p2, g2) :: rest) tail

/-- The `(number, segment)` pairs of a split. -/
def segPairsOf (r : List (Str × Str) × Str) : List (Str × Str) :=
  pairsAux r.1 r.2

/-- `_parse_questions`: detect ranges, excise the case section, split with
the punctuated recognizer, fall back to the no-punctuation recognizer when
the parts list is short, and parse each segment. -/
def parseQuestions (t : Str) : List Question :=
  let tr := detectQuestionTypeRanges t
  let mainText := mainTextOf t
  let segs :=
    if (primaryParts mainText).length < 10 then fallbackSegs mainText
    else primarySegs mainText
  (segPairsOf segs).filterMap (fun p => parseSingleQuestion p.1 p.2 tr)

/-- The spec's concrete two-question document. -/
def c1doc2 : Str := ( "1.What is X?\nA. a\nB. b\n答案:B\n2.What is Y?\nA. c\nB. d\n答案:A".data)

/-- The same document extended to five items of the same shape. -/
def c1doc5 : Str := ( "1.What is X?\nA. a\nB. b\n答案:B\n2.What is Y?\nA. c\nB. d\n答案:A\n3.What is Z3?\nA. e\nB. f\n答案:B\n4.What is Z4?\nA. g\nB. h\n答案:A\n5.What is Z5?\nA. i\nB. j\n答案:B".data)

/-! ### Case-study parsing (case_parser.py)

Marker detection (`_parse_case_studies`, lines 110-146), background
extraction (`_extract_background`) and sub-question extraction
(`_extract_sub_questions`).  A marker is modelled as
`(start, numeral, end)`. -/

/-- The Chinese numerals 一 to 十 of the case-marker class. -/
def isCn10 (c : Char) : Bool :=
  c = '一' || c = '二' || c = '三' || c = '四' || c = '五' ||
  c = '六' || c = '七' || c = '八' || c = '九' || c = '十'

/-- Position matcher for `案例[（(]?([一二三四五六七八九十])[）)]?`: the
optional opening parenthesis, once taken, commits (backtracking to the
no-parenthesis branch re-reads the parenthesis, which is not a numeral). -/
def casePat1At (s : Str) : Option (Char × Nat) :=
  (lit ( "案例".data) s).bind fun r =>
    match r with
    | [] => none
    | a :: rest =>
      if a = '（' || a = '(' then
        match rest with
        | [] => none
        | b :: rest2 =>
          if isCn10 b then
            match rest2 with
            | c :: _ => if c = '）' || c = ')' then some (b, 5) else some (b, 4)
            | [] => some (b, 4)
          else none
      else if isCn10 a then
        match rest with
        | c :: _ => if c = '）' || c = ')' then some (a, 4) else some (a, 3)
        | [] => some (a, 3)
      else none

/-- The lookahead filter of lines 117-122: the 20 characters after a
marker must start with `\s*\n` (a newline inside the leading whitespace)
or the token `背景`. -/
def caseLookahead (next20 : Str) : Bool :=
  (next20.takeWhile isPySpace).contains '\n' || ( "背景".data).isPrefixOf next20

/-- Apply the lookahead filter to one marker within its section. -/
def caseLookPass (sec : Str) (m : Nat × Char × Nat) : Bool :=
  caseLookahead ((sec.drop m.2.2).take 20)

/-- Greedy `\s*\n(?:背景资料|问题)` at `r`: the newline must be the last
whitespace character before the literal; candidates are tried from the
longest whitespace prefix downward.  Returns the consumed length. -/
def wsNlLitAux (r : Str) : Nat → Option Nat
  | 0 => none
  | k + 1 =>
    match r.drop k with
    | '\n' :: rest =>
      if ( "背景资料".data).isPrefixOf rest then some (k + 1 + 4)
      else if ( "问题".data).isPrefixOf rest then some (k + 1 + 2)
      else wsNlLitAux r k
    | _ => wsNlLitAux r k

/-- `\s*\n(?:背景资料|问题)` at `r`. -/
def wsNlLit (r : Str) : Option Nat := wsNlLitAux r (r.takeWhile isPySpace).length

/-- Position matcher for
`\n[（(]([一二三四五六七八九十])[）)]\s*\n(?:背景资料|问题)`. -/
def casePat2At (s : Str) : Option (Char × Nat) :=
  match s with
  | nl :: a :: b :: c :: rest =>
    if nl = '\n' && (a = '（' || a = '(') && isCn10 b && (c = '）' || c = ')') then
      (wsNlLit rest).map (fun k => (b, 4 + k))
    else none
  | _ => none

/-- Position matcher for `【案例([一二三四五六七八九十])】`. -/
def casePat3At (s : Str) : Option (Char × Nat) :=
  (lit ( "【案例".data) s).bind fun r =>
    match r with
    | b :: c :: _ => if isCn10 b && c = '】' then some (b, 5) else none
    | _ => none

/-- Greedy `\s*\n(?![、，])` at `r`: the last newline of the whitespace
prefix that is not followed by a list-continuation punctuation mark. -/
def wsNlNotPunctAux (r : Str) : Nat → Option Nat
  | 0 => none
  | k + 1 =>
    match r.drop k with
    | '\n' :: rest =>
      if (match rest with | d :: _ => d = '、' || d = '，' | [] => false) then
        wsNlNotPunctAux r k
      else some (k + 1)
    | _ => wsNlNotPunctAux r k

/-- `\s*\n(?![、，])` at `r`. -/
def wsNlNotPunct (r : Str) : Option Nat :=
  wsNlNotPunctAux r (r.takeWhile isPySpace).length

/-- Position matcher for
`\n[（(]([一二三四五六七八九十])[）)]\s*\n(?![、，])`. -/
def casePat4At (s : Str) : Option (Char × Nat) :=
  match s with
  | nl :: a :: b :: c :: rest =>
    if nl = '\n' && (a = '（' || a = '(') && isCn10 b && (c = '）' || c = ')') then
      (wsNlNotPunct rest).map (fun k => (b, 4 + k))
    else none
  | _ => none

/-- Lines 110-146 of `_parse_case_studies`: the marker list actually used.
Format 1 markers are filtered by the lookahead, but when no marker passes
the filter the unfiltered list is kept; formats 2-4 are only tried when
format 1 found nothing at all. -/
def caseMarkers (sec : Str) : List (Nat × Char × Nat) :=
  let ms1 := pyFindAllPos casePat1At sec
  let filtered := ms1.filter (caseLookPass sec)
  let msA := if filtered.isEmpty then ms1 else filtered
  if msA.isEmpty then
    let ms2 := pyFindAllPos casePat2At sec
    if ms2.isEmpty then
      let ms3 := pyFindAllPos casePat3At sec
      if ms3.isEmpty then pyFindAllPos casePat4At sec
      else ms3
    else ms2
  else msA

/-- Position matcher for `问\s*题`. -/
def qMarkAt (s : Str) : Option Unit :=
  (lit ( "问".data) s).bind fun r =>
    if ( "题".data).isPrefixOf (r.dropWhile isPySpace) then some () else none

/-- `re.search` for the `问\s*题` marker. -/
def searchQMark (t : Str) : Option Nat := (scanFirst qMarkAt t).map Prod.fst

/-- The lazy capture of `背景资料[：:]\s*(.*?)(?=问\s*题|$)` (DOTALL): up
to the first `问\s*题` or `$`. -/
def bgGroupLazy : Str → Str
  | [] => []
  | c :: rest =>
    if (qMarkAt (c :: rest)).isSome then []
    else if c = '\n' && rest.isEmpty then []
    else c :: bgGroupLazy rest

/-- Position matcher for the background label pattern; yields the stripped
capture (tier 1 returns it without any length check). -/
def bgLabelAt (s : Str) : Option Str :=
  ((lit ( "背景资料".data) s).bind litColon).map fun r =>
    pyStrip (bgGroupLazy (r.dropWhile isPySpace))

/-- `re.search` for the background label; yields the stripped capture. -/
def searchBgLabel (t : Str) : Option Str :=
  (scanFirst bgLabelAt t).map Prod.snd

/-- Does the stripped line start with `\d+[.、．]` (`re.match`)? -/
def lineIsNum (l : Str) : Bool :=
  let st := pyStrip l
  let ds := st.takeWhile Char.isDigit
  !ds.isEmpty &&
    (match st.drop ds.length with | c :: _ => isQPunct c | [] => false)

/-- Accumulate lines until one starts (stripped) with a numbered-list
marker. -/
def takeUntilNum : List Str → List Str
  | [] => []
  | l :: rest => if lineIsNum l then [] else l :: takeUntilNum rest

/-- Tier 3 of `_extract_background`: the leading lines before a
numbered-list marker, joined and stripped. -/
def tier3Text (content : Str) : Str :=
  pyStrip (List.intercalate [ '\n' ] (takeUntilNum (content.splitOn '\n')))

/-- `_extract_background`: the explicit label tier returns its capture
with no length check; the text-before-question tier and the leading-lines
tier each require strictly more than 50 characters. -/
def extractBackground (content : Str) : Option Str :=
  match searchBgLabel content with
  | some bg => some bg
  | none =>
    match searchQMark content with
    | some i =>
      let bg := pyStrip (content.take i)
      if 50 < bg.length then some bg
      else if 50 < (tier3Text content).length then some (tier3Text content)
      else none
    | none =>
      if 50 < (tier3Text content).length then some (tier3Text content)
      else none

/-- `(.*?)$` under DOTALL without MULTILINE: everything up to the end,
excluding a single trailing newline. -/
def dollarLazy : Str → Str
  | [] => []
  | c :: rest => if c = '\n' && rest.isEmpty then [] else c :: dollarLazy rest

/-- Position matcher for `问\s*题[：:]?\s*(.*?)$` (DOTALL). -/
def probMarkAt (s : Str) : Option Str :=
  (lit ( "问".data) s).bind fun r =>
    (lit ( "题".data) (r.dropWhile isPySpace)).map fun r2 =>
      let r3 := match litColon r2 with | some x => x | none => r2
      dollarLazy (r3.dropWhile isPySpace)

/-- The problem section: the capture after the first `问题` marker, or the
whole span when the marker is absent. -/
def problemSectionOf (content : Str) : Str :=
  match scanFirst probMarkAt content with
  | some p => p.2
  | none => content

/-- Greedy continuation `(?:\n(?!\d+[.、．])[^\n]+)*` of sub-question
format 1. -/
def subContLines : Nat → Str → Str
  | 0, _ => []
  | fuel + 1, s =>
    match s with
    | '\n' :: rest =>
      if startsNumPunct rest then []
      else
        let line := rest.takeWhile (fun ch => ch ≠ '\n')
        if line = [] then []
        else '\n' :: (line ++ subContLines fuel (rest.drop line.length))
    | _ => []

/-- Position matcher for sub-question format 1,
`(\d+)[.、．]\s*([^\n]+(?:\n(?!\d+[.、．])[^\n]+)*)`.  When only
whitespace follows the marker, backtracking hands the last non-newline
whitespace character to the capture. -/
def subP1At (s : Str) : Option ((Nat × Str) × Nat) :=
  let ds := s.takeWhile Char.isDigit
  if ds = [] then none
  else
    match s.drop ds.length with
    | [] => none
    | c :: r1 =>
      if isQPunct c then
        let w := r1.takeWhile isPySpace
        let r2 := r1.drop w.length
        match r2 with
        | [] =>
          match w.reverse.find? (fun ch => ch ≠ '\n'),
                w.reverse.findIdx? (fun ch => ch ≠ '\n') with
          | some ch, some j =>
            some ((digitsVal ds, [ch]), ds.length + 1 + (w.length - j))
          | _, _ => none
        | _ :: _ =>
          let firstLine := r2.takeWhile (fun ch => ch ≠ '\n')
          let g := firstLine ++ subContLines r2.length (r2.drop firstLine.length)
          some ((digitsVal ds, g), ds.length + 1 + w.length + g.length)
      else none

/-- The lookahead body `\d+\s*[^\n]`: with two or more digits a shorter
digit split makes the trailing digit the `[^\n]`; otherwise some
character reachable through the whitespace run must be a non-newline. -/
def numLooseLook (s : Str) : Bool :=
  let ds := s.takeWhile Char.isDigit
  if ds = [] then false
  else if 2 ≤ ds.length then true
  else
    let r := s.drop ds.length
    let w := r.takeWhile isPySpace
    (r.take (w.length + 1)).any (fun ch => ch ≠ '\n')

/-- Greedy continuation `(?:\n(?!\d+\s*[^\n])[^\n]+)*` of sub-question
format 2. -/
def subCont2 : Nat → Str → Str
  | 0, _ => []
  | fuel + 1, s =>
    match s with
    | '\n' :: rest =>
      if numLooseLook rest then []
      else
        let line := rest.takeWhile (fun ch => ch ≠ '\n')
        if line = [] then []
        else '\n' :: (line ++ subCont2 fuel (rest.drop line.length))
    | _ => []

/-- Position matcher for sub-question format 2,
`(\d+)\s*([^\n]+(?:\n(?!\d+\s*[^\n])[^\n]+)*)`. -/
def subP2At (s : Str) : Option ((Nat × Str) × Nat) :=
  let ds := s.takeWhile Char.isDigit
  if ds = [] then none
  else
    let r1 := s.drop ds.length
    let w := r1.takeWhile isPySpace
    let r2 := r1.drop w.length
    match r2 with
    | [] =>
      match w.reverse.find? (fun ch => ch ≠ '\n'),
            w.reverse.findIdx? (fun ch => ch ≠ '\n') with
      | some ch, some j =>
        some ((digitsVal ds, [ch]), ds.length + (w.length - j))
      | _, _ => none
    | _ :: _ =>
      let firstLine := r2.takeWhile (fun ch => ch ≠ '\n')
      let g := firstLine ++ subCont2 r2.length (r2.drop firstLine.length)
      some ((digitsVal ds, g), ds.length + w.length + g.length)

/-- A case's sub-question. -/
structure SubQuestion where
  subNumber : Nat
  question : Str
  answer : Option Str := none
  analysis : Option Str := none
deriving DecidableEq

/-- `_extract_sub_questions`: format 1 matches, else format 2; each kept
when its cleaned text is longer than 5 characters. -/
def extractSubQuestions (content : Str) : List SubQuestion :=
  let probSection := problemSectionOf content
  let ms1 := pyFindAll subP1At probSection
  let ms := if ms1.isEmpty then pyFindAll subP2At probSection else ms1
  ms.foldl (fun acc p =>
    let qt := collapseWs (pyStrip p.2)
    if 5 < qt.length then acc ++ [{ subNumber := p.1, question := qt }] else acc) []

/-- A case study entity. -/
structure CaseStudy where
  caseNumber : Nat
  year : Nat
  subject : Str
  title : Str
  background : Str
  subQuestions : List SubQuestion
  score : Option Nat
deriving DecidableEq

/-- `_parse_single_case`: reject on missing/empty background or missing
sub-questions, else build the entity. -/
def parseSingleCase (caseNum : Nat) (caseNumCh : Char) (content : Str)
    (year : Nat) (subject : Str) (score : Option Nat) : Option CaseStudy :=
  match extractBackground content with
  | none => none
  | some bg =>
    if bg = [] then none
    else
      let sqs := extractSubQuestions content
      if sqs = [] then none
      else some { caseNumber := caseNum, year := year, subject := subject,
                  title := ( "案例（".data) ++ [caseNumCh] ++ ( "）".data),
                  background := bg, subQuestions := sqs, score := score }

/-- A case section whose only format-1 marker fails the lookahead. -/
def c6text : Str := ( "本案例一般要求较高".data)

/-- A case section with one failing and one passing format-1 marker. -/
def c6mix : Str := ( "案例一般文本\n案例（二）\n背景资料：x".data)

/-- A candidate case whose labelled background has 2 characters and whose
other tiers are also far below 50 characters. -/
def c5label : Str := ( "背景资料:ab\n问题\n1.Is the arrangement of work appropriate here?".data)

/-- A candidate case with no background label, a short pre-question text
and short leading lines. -/
def c5short : Str := ( "简短背景\n问题\n1.Why is it?".data)

/-- A document carrying all three section headers. -/
def c4text : Str := ( "一、单项选择题共20题\n二、多项选择题共10题\n三、案例分析题共5题".data)

/-- The claimed appendix shape: 20 single-choice answers numbered 1-20 and
10 multi-choice answers numbered 1-10 again. -/
def c3app : Str := ( "一、单项选择题(共20题,每题1分)\n1 D 2 B 3 A 4 D 5 C\n6 A 7 A 8 C 9 C 10 B\n11 A 12 B 13 C 14 D 15 A\n16 B 17 C 18 D 19 A 20 B\n二、多项选择题(共10题,每题2分)\n1 ABCE 2 ACE 3 ABCD\n4 BCD 5 ABD\n6 ACD 7 ABE 8 BCE 9 ADE 10 ABC".data)

/-- A separated-answers document whose appendix uses the spaced layout. -/
def c8text : Str := ( "参考答案\n一、单项选择题\n1 A 2 B\n".data)

/-- A document matching no answer pattern at all. -/
def c9text : Str := ( "xyz".data)

/-- An answer region in which pattern 1 and pattern 2 both capture an
answer for question 1. -/
def c10text : Str := ( "1.【答案】A\n1. 答案：B\n".data)

/-- A ten-character marker-free document used to separate the code's
fallback region from the region the spec describes. -/
def c7text : Str := ( "QQQQQXXXXX".data)

/-!
## Theorems
-/

/-- A parts list has `2 * matches + 1` entries. -/
theorem partsOf_length (l : List (Str × Str)) (t : Str) :
    (partsOf (l, t)).length = 2 * l.length + 1 := by
  induction l with
  | nil => simp [partsOf]
  | cons p l ih =>
    simp only [partsOf, List.foldr_cons, List.length_cons] at *
    omega

/-- A key is present exactly when its lookup succeeds. -/
theorem lookupEntry_isSome_iff (m : AnsMap) (n : Nat) :
    (lookupEntry m n).isSome ↔ n ∈ ansKeys m := by
  simp [lookupEntry, ansKeys, List.find?_isSome, List.mem_map, beq_iff_eq]

/-- Lookup in a cons cell. -/
theorem lookupEntry_cons (q : Nat × AnsEntry) (m : AnsMap) (n : Nat) :
    lookupEntry (q :: m) n =
      if q.1 = n then some q.2 else lookupEntry m n := by
  simp only [lookupEntry, List.find?]
  by_cases hq : q.1 = n
  · simp [hq]
  · simp [hq, beq_eq_false_iff_ne.mpr hq]

/-- Update distributes over cons. -/
theorem updateEntry_cons (q : Nat × AnsEntry) (m : AnsMap) (k : Nat) (e : AnsEntry) :
    updateEntry (q :: m) k e =
      (if q.1 = k then (k, e) else q) :: updateEntry m k e := by
  simp [updateEntry]

/-- Appending a fresh key makes it found. -/
theorem lookupEntry_append_self (m : AnsMap) (k : Nat) (e : AnsEntry)
    (h : lookupEntry m k = none) :
    lookupEntry (m ++ [(k, e)]) k = some e := by
  induction m with
  | nil => simp [lookupEntry_cons, lookupEntry]
  | cons p m ih =>
    rw [lookupEntry_cons] at h
    by_cases hpk : p.1 = k
    · simp [hpk] at h
    · rw [if_neg hpk] at h
      rw [List.cons_append, lookupEntry_cons, if_neg hpk]
      exact ih h

/-- Appending an entry does not affect other keys. -/
theorem lookupEntry_append_ne (m : AnsMap) (k n : Nat) (e : AnsEntry)
    (h : n ≠ k) :
    lookupEntry (m ++ [(k, e)]) n = lookupEntry m n := by
  induction m with
  | nil =>
    have hkn : ¬(k = n) := fun hh => h hh.symm
    simp [lookupEntry_cons, lookupEntry, hkn]
  | cons p m ih =>
    rw [List.cons_append, lookupEntry_cons, lookupEntry_cons]
    by_cases hpn : p.1 = n
    · rw [if_pos hpn, if_pos hpn]
    · rw [if_neg hpn, if_neg hpn]
      exact ih

/-- Updating a present key makes the lookup return the new entry. -/
theorem lookupEntry_updateEntry_self (m : AnsMap) (k : Nat) (e : AnsEntry)
    (h : (lookupEntry m k).isSome) :
    lookupEntry (updateEntry m k e) k = some e := by
  induction m with
  | nil => simp [lookupEntry] at h
  | cons p m ih =>
    rw [updateEntry_cons]
    by_cases hpk : p.1 = k
    · simp [hpk, lookupEntry_cons]
    · rw [lookupEntry_cons] at h
      simp only [if_neg hpk] at h
      simp only [if_neg hpk, lookupEntry_cons]
      exact ih h

/-- Updating a key does not affect other keys. -/
theorem lookupEntry_updateEntry_ne (m : AnsMap) (k n : Nat) (e : AnsEntry)
    (h : n ≠ k) :
    lookupEntry (updateEntry m k e) n = lookupEntry m n := by
  induction m with
  | nil => simp [updateEntry, lookupEntry]
  | cons p m ih =>
    rw [updateEntry_cons, lookupEntry_cons, lookupEntry_cons]
    by_cases hpk : p.1 = k
    · rw [if_pos hpk]
      have hkn : ¬(k = n) := fun hh => h hh.symm
      have hpn : ¬(p.1 = n) := by rw [hpk]; exact hkn
      rw [if_neg hkn, if_neg hpn]
      exact ih
    · rw [if_neg hpk]
      by_cases hpn : p.1 = n
      · rw [if_pos hpn, if_pos hpn]
      · rw [if_neg hpn, if_neg hpn]
        exact ih

/-- Updating preserves the key list. -/
theorem ansKeys_updateEntry (m : AnsMap) (k : Nat) (e : AnsEntry) :
    ansKeys (updateEntry m k e) = ansKeys m := by
  induction m with
  | nil => rfl
  | cons p m ih =>
    by_cases hpk : p.1 = k <;>
      simp only [ansKeys, updateEntry, List.map_cons, if_pos, if_neg, hpk] at * <;>
      simp [ih, hpk]

/-- Key membership after one spaced-layout insertion. -/
theorem mem_ansKeys_spacedInsert (mc : AnsMap × Nat) (p : Nat × Str) (n : Nat) :
    n ∈ ansKeys (spacedInsert mc p).1 ↔ n ∈ ansKeys mc.1 ∨ n = p.1 := by
  unfold spacedInsert
  cases hl : lookupEntry mc.1 p.1 with
  | some e =>
    have hk : p.1 ∈ ansKeys mc.1 := by
      rw [← lookupEntry_isSome_iff, hl]; rfl
    simp only [ansKeys_updateEntry]
    constructor
    · exact Or.inl
    · rintro (h | rfl)
      · exact h
      · exact hk
  | none => simp [ansKeys]

/-- Key membership after the single-choice insertion loop. -/
theorem mem_ansKeys_foldl_spacedInsert (ps : List (Nat × Str))
    (mc : AnsMap × Nat) (n : Nat) :
    n ∈ ansKeys (ps.foldl spacedInsert mc).1 ↔
      n ∈ ansKeys mc.1 ∨ ∃ p ∈ ps, n = p.1 := by
  induction ps generalizing mc with
  | nil => simp
  | cons p ps ih =>
    rw [List.foldl_cons, ih, mem_ansKeys_spacedInsert]
    constructor
    · rintro ((h | h) | h)
      · exact Or.inl h
      · exact Or.inr ⟨p, by simp, h⟩
      · obtain ⟨q, hq, hn⟩ := h
        exact Or.inr ⟨q, by simp [hq], hn⟩
    · rintro (h | ⟨q, hq, hn⟩)
      · exact Or.inl (Or.inl h)
      · rcases List.mem_cons.mp hq with rfl | hq2
        · exact Or.inl (Or.inr hn)
        · exact Or.inr ⟨q, hq2, hn⟩

/-- Key membership after the offset-remapped multi-choice insertion loop. -/
theorem mem_ansKeys_foldl_spacedInsertOff (off : Nat) (ps : List (Nat × Str))
    (mc : AnsMap × Nat) (n : Nat) :
    n ∈ ansKeys (ps.foldl (fun mc p => spacedInsert mc (off + p.1, p.2)) mc).1 ↔
      n ∈ ansKeys mc.1 ∨ ∃ p ∈ ps, n = off + p.1 := by
  induction ps generalizing mc with
  | nil => simp
  | cons p ps ih =>
    rw [List.foldl_cons, ih, mem_ansKeys_spacedInsert]
    constructor
    · rintro ((h | h) | h)
      · exact Or.inl h
      · exact Or.inr ⟨p, by simp, h⟩
      · obtain ⟨q, hq, hn⟩ := h
        exact Or.inr ⟨q, by simp [hq], hn⟩
    · rintro (h | ⟨q, hq, hn⟩)
      · exact Or.inl (Or.inl h)
      · rcases List.mem_cons.mp hq with rfl | hq2
        · exact Or.inl (Or.inr hn)
        · exact Or.inr ⟨q, hq2, hn⟩

/-- A spaced-layout insertion never decreases the new-entry count. -/
theorem spacedInsert_count_le (mc : AnsMap × Nat) (p : Nat × Str) :
    mc.2 ≤ (spacedInsert mc p).2 := by
  unfold spacedInsert
  cases lookupEntry mc.1 p.1 <;> simp

/-- The single-choice loop never decreases the new-entry count. -/
theorem foldl_spacedInsert_count_le (ps : List (Nat × Str)) (mc : AnsMap × Nat) :
    mc.2 ≤ (ps.foldl spacedInsert mc).2 := by
  induction ps generalizing mc with
  | nil => simp
  | cons p ps ih => exact le_trans (spacedInsert_count_le mc p) (ih _)

/-- The multi-choice loop never decreases the new-entry count. -/
theorem foldl_spacedInsertOff_count_le (off : Nat) (ps : List (Nat × Str))
    (mc : AnsMap × Nat) :
    mc.2 ≤ (ps.foldl (fun mc p => spacedInsert mc (off + p.1, p.2)) mc).2 := by
  induction ps generalizing mc with
  | nil => simp
  | cons p ps ih => exact le_trans (spacedInsert_count_le mc _) (ih _)

/-- The new-entry count equals the map size (starting from an empty map). -/
theorem spacedInsert_len (mc : AnsMap × Nat) (p : Nat × Str)
    (h : mc.2 = mc.1.length) :
    (spacedInsert mc p).2 = (spacedInsert mc p).1.length := by
  unfold spacedInsert
  cases lookupEntry mc.1 p.1 <;> simp [updateEntry, h]

/-- The count/size invariant is preserved by the single-choice loop. -/
theorem foldl_spacedInsert_len (ps : List (Nat × Str)) (mc : AnsMap × Nat)
    (h : mc.2 = mc.1.length) :
    (ps.foldl spacedInsert mc).2 = (ps.foldl spacedInsert mc).1.length := by
  induction ps generalizing mc with
  | nil => exact h
  | cons p ps ih => exact ih _ (spacedInsert_len mc p h)

/-- The single-choice phase count equals its map size. -/
theorem spacedSingleMap_len (s : Str) :
    (spacedSingleMap s).2 = (spacedSingleMap s).1.length :=
  foldl_spacedInsert_len _ _ rfl

/-- If either sub-region produced a pair, the spaced extraction reports a
positive count (its Python return value is `True`). -/
theorem tryExtract_count_pos (s : Str)
    (h : singleAnswerPairs s ≠ [] ∨ multiAnswerPairs s ≠ []) :
    0 < (tryExtractSpacedAnswers s).2 := by
  have hexp : tryExtractSpacedAnswers s =
      (multiAnswerPairs s).foldl
        (fun mc p => spacedInsert mc (maxSingleOf (spacedSingleMap s).1 + p.1, p.2))
        (spacedSingleMap s) := rfl
  rw [hexp]
  rcases h with h | h
  · have h1 : 1 ≤ (spacedSingleMap s).2 := by
      unfold spacedSingleMap
      cases hsp : singleAnswerPairs s with
      | nil => exact absurd hsp h
      | cons p ps =>
        rw [List.foldl_cons]
        have hstep : (spacedInsert (([] : AnsMap), 0) p).2 = 1 := by
          simp [spacedInsert, lookupEntry]
        have := foldl_spacedInsert_count_le ps (spacedInsert (([] : AnsMap), 0) p)
        omega
    have := foldl_spacedInsertOff_count_le (maxSingleOf (spacedSingleMap s).1)
      (multiAnswerPairs s) (spacedSingleMap s)
    omega
  · cases hmp : multiAnswerPairs s with
    | nil => exact absurd hmp h
    | cons p ps =>
      rw [List.foldl_cons]
      have h1 : 1 ≤ (spacedInsert (spacedSingleMap s)
          (maxSingleOf (spacedSingleMap s).1 + p.1, p.2)).2 := by
        unfold spacedInsert
        cases hl : lookupEntry (spacedSingleMap s).1
            (maxSingleOf (spacedSingleMap s).1 + p.1) with
        | some e =>
          have hne : (spacedSingleMap s).1 ≠ [] := by
            intro hh
            rw [hh] at hl
            simp [lookupEntry] at hl
          have hlen : 1 ≤ (spacedSingleMap s).1.length :=
            List.length_pos.mpr hne
          have := spacedSingleMap_len s
          simp only
          omega
        | none => simp
      have := foldl_spacedInsertOff_count_le (maxSingleOf (spacedSingleMap s).1)
        ps (spacedInsert (spacedSingleMap s)
          (maxSingleOf (spacedSingleMap s).1 + p.1, p.2))
      omega

/-- The `max_single` step when the entry has a one-letter answer. -/
theorem maxSingleStep_some_one (acc : Nat) (p : Nat × AnsEntry) (a : Str)
    (ha : p.2.answer = some a) (hl : a.length = 1) :
    maxSingleStep acc p = max acc p.1 := by
  simp [maxSingleStep, ha, hl]

/-- The `max_single` step never decreases the accumulator. -/
theorem le_maxSingleStep (acc : Nat) (p : Nat × AnsEntry) :
    acc ≤ maxSingleStep acc p := by
  cases ha : p.2.answer with
  | some a =>
    by_cases hl : a.length = 1
    · simp [maxSingleStep, ha, hl]
    · simp [maxSingleStep, ha, hl]
  | none => simp [maxSingleStep, ha]

/-- The `max_single` accumulator only grows. -/
theorem foldl_maxSingleStep_le (m : AnsMap) (acc : Nat) :
    acc ≤ m.foldl maxSingleStep acc := by
  induction m generalizing acc with
  | nil => simp
  | cons p m ih =>
    rw [List.foldl_cons]
    exact le_trans (le_maxSingleStep acc p) (ih _)

/-- Every one-letter-answer key bounds into the `max_single` fold. -/
theorem foldl_maxSingleStep_bound (m : AnsMap) (acc : Nat) (p : Nat × AnsEntry)
    (hp : p ∈ m) (a : Str) (ha : p.2.answer = some a) (hl : a.length = 1) :
    p.1 ≤ m.foldl maxSingleStep acc := by
  induction m generalizing acc with
  | nil => simp at hp
  | cons q m ih =>
    rw [List.foldl_cons]
    rcases List.mem_cons.mp hp with rfl | hp2
    · refine le_trans ?_ (foldl_maxSingleStep_le m _)
      rw [maxSingleStep_some_one acc p a ha hl]
      exact le_max_right _ _
    · exact ih _ hp2

/-- The `max_single` fold result is the initial accumulator or one of the
one-letter-answer keys. -/
theorem foldl_maxSingleStep_attained (m : AnsMap) (acc : Nat) :
    m.foldl maxSingleStep acc = acc ∨
    ∃ p ∈ m, ∃ a : Str, p.2.answer = some a ∧ a.length = 1 ∧
      m.foldl maxSingleStep acc = p.1 := by
  induction m generalizing acc with
  | nil => exact Or.inl rfl
  | cons q m ih =>
    rw [List.foldl_cons]
    rcases ih (maxSingleStep acc q) with h | ⟨p, hp, a, ha, hl, hv⟩
    · rw [h]
      cases hq : q.2.answer with
      | some a =>
        by_cases hl : a.length = 1
        · rw [maxSingleStep_some_one acc q a hq hl]
          rcases max_choice acc q.1 with hm | hm
          · exact Or.inl hm
          · exact Or.inr ⟨q, by simp, a, hq, hl, hm⟩
        · simp only [maxSingleStep, hq, if_neg hl]
          exact Or.inl trivial
      | none =>
        simp only [maxSingleStep, hq]
        exact Or.inl trivial
    · exact Or.inr ⟨p, by simp [hp], a, ha, hl, hv⟩

/-- A seven-pattern insertion with a non-empty cleaned capture sets the
answer at its own number. -/
theorem lookupAnswer_sevenInsert_self (m : AnsMap) (p : Nat × Str)
    (h : cleanAnswerCapture p.2 ≠ []) :
    lookupAnswer (sevenInsert m p) p.1 = some (cleanAnswerCapture p.2) := by
  unfold sevenInsert
  rw [if_neg h]
  cases hl : lookupEntry m p.1 with
  | some e =>
    have hs : (lookupEntry m p.1).isSome := by rw [hl]; rfl
    unfold lookupAnswer
    rw [lookupEntry_updateEntry_self m p.1 _ hs]
    rfl
  | none =>
    unfold lookupAnswer
    rw [lookupEntry_append_self m p.1 _ hl]
    rfl

/-- A seven-pattern insertion does not affect other numbers. -/
theorem lookupAnswer_sevenInsert_ne (m : AnsMap) (p : Nat × Str) (n : Nat)
    (h : n ≠ p.1) :
    lookupAnswer (sevenInsert m p) n = lookupAnswer m n := by
  unfold sevenInsert
  by_cases ha : cleanAnswerCapture p.2 = []
  · rw [if_pos ha]
  · rw [if_neg ha]
    cases hl : lookupEntry m p.1 with
    | some e =>
      unfold lookupAnswer
      rw [lookupEntry_updateEntry_ne m p.1 n _ h]
    | none =>
      unfold lookupAnswer
      rw [lookupEntry_append_ne m p.1 n _ h]

/-- The answer recorded by a run of seven-pattern insertions is the one of
the latest effective match, or the incoming value when no match for that
number is effective. -/
theorem foldl_sevenInsert_lookup (ms : List (Nat × Str)) (m : AnsMap) (n : Nat) :
    lookupAnswer (ms.foldl sevenInsert m) n =
      match lastAnswerFor ms n with
      | some a => some a
      | none => lookupAnswer m n := by
  induction ms generalizing m with
  | nil => simp [lastAnswerFor]
  | cons p ms ih =>
    rw [List.foldl_cons, ih]
    cases hrest : lastAnswerFor ms n with
    | some a => simp [lastAnswerFor, hrest]
    | none =>
      simp only [lastAnswerFor, hrest]
      by_cases hc : p.1 = n ∧ cleanAnswerCapture p.2 ≠ []
      · rw [if_pos hc]
        rw [← hc.1]
        exact lookupAnswer_sevenInsert_self m p hc.2
      · rw [if_neg hc]
        by_cases hn : p.1 = n
        · have ha : cleanAnswerCapture p.2 = [] := by
            by_contra hne
            exact hc ⟨hn, hne⟩
          unfold sevenInsert
          rw [if_pos ha]
        · exact lookupAnswer_sevenInsert_ne m p n (fun hh => hn hh.symm)

/-- The nested pattern-then-match fold equals the fold over the
concatenated match list. -/
theorem sevenPhase_eq_foldl (s : Str) :
    sevenPhase s = (allSevenMatches s).foldl sevenInsert [] := by
  simp [sevenPhase, allSevenMatches, List.foldl_append]

/-- An analysis insertion into the empty map is a no-op, so the analysis
pass cannot create entries. -/
theorem foldl_analysisInsert_nil (ms : List (Nat × Str)) :
    ms.foldl analysisInsert [] = [] := by
  induction ms with
  | nil => rfl
  | cons p ms ih =>
    rw [List.foldl_cons]
    have : analysisInsert [] p = [] := by
      unfold analysisInsert
      simp [lookupEntry]
    rw [this, ih]

/-- C3: in the spaced-layout extractor, the keys of the final map are the
single-choice keys plus `max_single + n` for every multi-choice pair
`(n, _)`, where `max_single` is the greatest already-extracted number
carrying a one-letter answer; on the claimed 20-single/10-multi appendix
the multi-choice answers land on numbers 21-30. -/
theorem c3_offset_correction :
    (∀ s : Str, ∀ n : Nat,
      n ∈ ansKeys (tryExtractSpacedAnswers s).1 ↔
        (n ∈ ansKeys (spacedSingleMap s).1 ∨
         ∃ p ∈ multiAnswerPairs s, n = maxSingleOf (spacedSingleMap s).1 + p.1)) ∧
    (∀ m : AnsMap,
      (∀ p ∈ m, ∀ a : Str, p.2.answer = some a → a.length = 1 →
        p.1 ≤ maxSingleOf m) ∧
      (maxSingleOf m = 0 ∨
       ∃ p ∈ m, ∃ a : Str, p.2.answer = some a ∧ a.length = 1 ∧
         p.1 = maxSingleOf m)) ∧
    ((singleAnswerPairs c3app).map Prod.fst = List.range' 1 20 ∧
     (multiAnswerPairs c3app).map Prod.fst = List.range' 1 10 ∧
     maxSingleOf (spacedSingleMap c3app).1 = 20 ∧
     ansKeys (tryExtractSpacedAnswers c3app).1 = List.range' 1 30 ∧
     lookupAnswer (tryExtractSpacedAnswers c3app).1 21 = some ( "ABCE".data) ∧
     lookupAnswer (tryExtractSpacedAnswers c3app).1 30 = some ( "ABC".data)) := by
  refine ⟨fun s n => ?_, fun m => ⟨?_, ?_⟩, by decide⟩
  · have hexp : tryExtractSpacedAnswers s =
        (multiAnswerPairs s).foldl
          (fun mc p => spacedInsert mc (maxSingleOf (spacedSingleMap s).1 + p.1, p.2))
          (spacedSingleMap s) := rfl
    rw [hexp, mem_ansKeys_foldl_spacedInsertOff]
  · intro p hp a ha hl
    exact foldl_maxSingleStep_bound m 0 p hp a ha hl
  · rcases foldl_maxSingleStep_attained m 0 with h | ⟨p, hp, a, ha, hl, hv⟩
    · exact Or.inl h
    · exact Or.inr ⟨p, hp, a, ha, hl, hv.symm⟩

/-- C3 witness: the offset-mapped key 21 is present in the appendix map,
and key 20 (a one-letter answer) bounds `max_single`. -/
theorem c3_offset_correction_witness :
    21 ∈ ansKeys (tryExtractSpacedAnswers c3app).1 ∧
    20 ≤ maxSingleOf (spacedSingleMap c3app).1 :=
  ⟨(c3_offset_correction.1 c3app 21).mpr
      (Or.inr ⟨(1, ( "ABCE".data)), by decide, by decide⟩),
   (c3_offset_correction.2.1 (spacedSingleMap c3app).1).1
      (20, { answer := some ( "B".data), analysis := none }) (by decide)
      ( "B".data) (by decide) (by decide)⟩

/-- C8: whenever the spaced layout yields at least one pair in either
sub-region, its map is returned as the whole result of
`_extract_answers_section` and the seven-pattern and analysis passes are
skipped. -/
theorem c8_spaced_authoritative (t : Str)
    (h : singleAnswerPairs (extractAnswersRegion t) ≠ [] ∨
         multiAnswerPairs (extractAnswersRegion t) ≠ []) :
    extractAnswersSection t = (tryExtractSpacedAnswers (extractAnswersRegion t)).1 := by
  have hpos : 0 < (tryExtractSpacedAnswers (extractAnswersRegion t)).2 :=
    tryExtract_count_pos _ h
  simp only [extractAnswersSection]
  rw [if_pos hpos]

/-- C8 witness: a document whose appendix has a spaced single-choice
layout. -/
theorem c8_spaced_authoritative_witness :
    extractAnswersSection c8text =
      (tryExtractSpacedAnswers (extractAnswersRegion c8text)).1 :=
  c8_spaced_authoritative c8text (Or.inl (by decide))

/-- C9: the answer extractor is a total function of the document text, and
on a document where no spaced-layout pair and no seven-pattern match
exists in the located answer region it returns the empty map (the
analysis pass attaches only to known numbers, so it cannot add any). -/
theorem c9_no_match_empty (t : Str)
    (hs : singleAnswerPairs (extractAnswersRegion t) = [])
    (hm : multiAnswerPairs (extractAnswersRegion t) = [])
    (h1 : sevenP1Matches (extractAnswersRegion t) = [])
    (h2 : sevenP2Matches (extractAnswersRegion t) = [])
    (h3 : sevenP3Matches (extractAnswersRegion t) = [])
    (h4 : sevenP4Matches (extractAnswersRegion t) = [])
    (h5 : sevenP5Matches (extractAnswersRegion t) = [])
    (h6 : sevenP6Matches (extractAnswersRegion t) = [])
    (h7 : sevenP7Matches (extractAnswersRegion t) = []) :
    extractAnswersSection t = [] := by
  have hspaced : tryExtractSpacedAnswers (extractAnswersRegion t) = ([], 0) := by
    have hexp : tryExtractSpacedAnswers (extractAnswersRegion t) =
        (multiAnswerPairs (extractAnswersRegion t)).foldl
          (fun mc p => spacedInsert mc
            (maxSingleOf (spacedSingleMap (extractAnswersRegion t)).1 + p.1, p.2))
          (spacedSingleMap (extractAnswersRegion t)) := rfl
    rw [hexp, hm]
    simp only [List.foldl_nil]
    unfold spacedSingleMap
    rw [hs]
    rfl
  have hphase : sevenPhase (extractAnswersRegion t) = [] := by
    rw [sevenPhase_eq_foldl]
    unfold allSevenMatches
    rw [h1, h2, h3, h4, h5, h6, h7]
    rfl
  simp only [extractAnswersSection, hspaced, hphase]
  simpa using foldl_analysisInsert_nil (analysisP1Matches (extractAnswersRegion t))

/-- C9 witness: a document matching nothing yields the empty map. -/
theorem c9_no_match_empty_witness : extractAnswersSection c9text = [] :=
  c9_no_match_empty c9text (by decide) (by decide) (by decide) (by decide)
    (by decide) (by decide) (by decide) (by decide) (by decide)

/-- C10: all seven patterns contribute their matches (in pattern order),
and the recorded answer for a number is the one of the latest effective
match, so later patterns overwrite earlier ones; concretely, when pattern
1 captures A and pattern 2 captures B for question 1, the final answer is
B. -/
theorem c10_cascade :
    (∀ s : Str, ∀ n : Nat,
      lookupAnswer (sevenPhase s) n = lastAnswerFor (allSevenMatches s) n) ∧
    sevenP1Matches c10text = [(1, ( "A".data))] ∧
    sevenP2Matches c10text = [(1, ( "B".data))] ∧
    lookupAnswer (sevenPhase c10text) 1 = some ( "B".data) := by
  refine ⟨fun s n => ?_, by decide, by decide, by decide⟩
  rw [sevenPhase_eq_foldl, foldl_sevenInsert_lookup]
  cases lastAnswerFor (allSevenMatches s) n with
  | some a => rfl
  | none => simp [lookupAnswer, lookupEntry]

/-- C1 (counterexample): the spec's two-question document parses to no
questions at all: the punctuated split yields only 5 parts (fewer than
10), so the no-punctuation fallback is engaged, and it matches nothing on
this document. -/
theorem c1_counterexample :
    parseQuestions c1doc2 = [] ∧ (parseQuestions c1doc2).length ≠ 2 := by
  decide

/-- C1 (amended): the two-item document falls below the low-yield
threshold (5 split parts < 10) and parses to nothing; the same per-item
format with five items parses to exactly those five questions, the first
two carrying the claimed numbers, options and answers. -/
theorem c1_parse_scenario :
    (primaryParts (mainTextOf c1doc2)).length = 5 ∧
    parseQuestions c1doc2 = [] ∧
    parseQuestions c1doc5 =
      [{ number := 1, qtype := ( "单选题".data), question := ( "What is X?".data),
         options := [('A', ( "a".data)), ('B', ( "b".data))],
         answer := some ( "B".data), analysis := none,
         knowledgePoints := [], difficulty := none },
       { number := 2, qtype := ( "单选题".data), question := ( "What is Y?".data),
         options := [('A', ( "c".data)), ('B', ( "d".data))],
         answer := some ( "A".data), analysis := none,
         knowledgePoints := [], difficulty := none },
       { number := 3, qtype := ( "单选题".data), question := ( "What is Z3?".data),
         options := [('A', ( "e".data)), ('B', ( "f".data))],
         answer := some ( "B".data), analysis := none,
         knowledgePoints := [], difficulty := none },
       { number := 4, qtype := ( "单选题".data), question := ( "What is Z4?".data),
         options := [('A', ( "g".data)), ('B', ( "h".data))],
         answer := some ( "A".data), analysis := none,
         knowledgePoints := [], difficulty := none },
       { number := 5, qtype := ( "单选题".data), question := ( "What is Z5?".data),
         options := [('A', ( "i".data)), ('B', ( "j".data))],
         answer := some ( "B".data), analysis := none,
         knowledgePoints := [], difficulty := none }] := by
  decide

/-- C2 (counterexample): on a document where the punctuated recognizer
matches exactly 5 times (fewer than 10), the code still uses the
punctuated split and does not engage the fallback, contradicting the
claimed threshold of 10 matches. -/
theorem c2_counterexample :
    primaryCount c2text = 5 ∧ primaryCount c2text < 10 ∧
    questionSegParts c2text = primaryParts c2text ∧
    questionSegParts c2text ≠ fallbackParts c2text := by
  decide

/-- C2 (amended): the acceptance test is on the split parts list
(`len(parts) < 10`), which holds exactly when the punctuated recognizer
matched at most 4 times; so the primary split is used exactly when it
matches 5 or more times, and with fewer than 5 matches the no-punctuation
fallback is engaged; on a punctuation-free document the fallback still
recovers all items. -/
theorem c2_threshold :
    (∀ s : Str,
      (5 ≤ primaryCount s → questionSegParts s = primaryParts s) ∧
      (primaryCount s < 5 → questionSegParts s = fallbackParts s)) ∧
    primaryCount c2unp = 0 ∧
    fallbackParts c2unp =
      [([] : Str), ( "1".data), ( "根据aaa".data), ( "2".data),
       ( "根据bbb".data), ( "3".data), ( "根据ccc".data)] := by
  refine ⟨fun s => ?_, by decide, by decide⟩
  have hlen : (primaryParts s).length = 2 * primaryCount s + 1 := by
    have := partsOf_length (primarySegs s).1 (primarySegs s).2
    simpa [primaryParts, primaryCount] using this
  constructor
  · intro h
    rw [questionSegParts, if_neg]
    omega
  · intro h
    rw [questionSegParts, if_pos]
    omega

/-- C2 witness: both branches of the amended threshold statement, applied
at concrete documents. -/
theorem c2_threshold_witness :
    (5 ≤ primaryCount c2text ∧ questionSegParts c2text = primaryParts c2text) ∧
    (primaryCount c2unp < 5 ∧ questionSegParts c2unp = fallbackParts c2unp) :=
  ⟨⟨by decide, (c2_threshold.1 c2text).1 (by decide)⟩,
   ⟨by decide, (c2_threshold.1 c2unp).2 (by decide)⟩⟩

/-- C4: when all three section headers are detected with declared counts
`a`, `b`, `c`, the computed ranges are exactly `[1,a]`, `[a+1,a+b]`,
`[a+b+1,a+b+c]`, and these intervals cover `1..a+b+c` with no gaps and no
overlaps. -/
theorem c4_type_ranges (t : Str) (a b c : Nat)
    (h1 : findSingleHeader t = some a) (h2 : findMultiHeader t = some b)
    (h3 : findCaseHeader t = some c) :
    detectQuestionTypeRanges t =
      [(( "单选题".data), (1, a)), (( "多选题".data), (a + 1, a + b)),
       (( "案例题".data), (a + b + 1, a + b + c))] ∧
    (∀ k : Nat, (1 ≤ k ∧ k ≤ a + b + c) ↔
      ((1 ≤ k ∧ k ≤ a) ∨ (a + 1 ≤ k ∧ k ≤ a + b) ∨
       (a + b + 1 ≤ k ∧ k ≤ a + b + c))) ∧
    (∀ k : Nat, ¬((1 ≤ k ∧ k ≤ a) ∧ (a + 1 ≤ k ∧ k ≤ a + b)) ∧
      ¬((1 ≤ k ∧ k ≤ a) ∧ (a + b + 1 ≤ k ∧ k ≤ a + b + c)) ∧
      ¬((a + 1 ≤ k ∧ k ≤ a + b) ∧ (a + b + 1 ≤ k ∧ k ≤ a + b + c))) := by
  refine ⟨?_, fun k => by omega, fun k => by omega⟩
  unfold detectQuestionTypeRanges
  rw [h1, h2, h3]
  simp only [rangesGetEnd, List.find?]
  by_cases hab : a + b = 0
  · simp [hab]
    omega
  · simp [hab]

/-- C4 witness: all three headers present with counts 20, 10, 5 give the
ranges 1-20, 21-30, 31-35. -/
theorem c4_type_ranges_witness :
    detectQuestionTypeRanges c4text =
      [(( "单选题".data), (1, 20)), (( "多选题".data), (21, 30)),
       (( "案例题".data), (31, 35))] :=
  (c4_type_ranges c4text 20 10 5 (by decide) (by decide) (by decide)).1

/-- C5 (counterexample): a candidate case whose background, as seen by
every tier, is far below 50 characters (the labelled capture has 2
characters, the pre-question text 7, the leading lines fewer than 50)
still produces a CaseStudy, because the explicit-label tier performs no
length check. -/
theorem c5_counterexample :
    searchBgLabel c5label = some ( "ab".data) ∧
    searchQMark c5label = some 8 ∧
    (pyStrip (c5label.take 8)).length < 50 ∧
    (tier3Text c5label).length < 50 ∧
    (parseSingleCase 1 '一' c5label 2023 ( "机电实务".data) none).isSome := by
  decide

/-- C5 (amended): only the pre-question tier and the leading-lines tier
enforce the 50-character minimum (strictly more than 50): when the
explicit background label does not match and both remaining tiers yield
at most 50 characters, no background is extracted and no CaseStudy is
produced; a background found by the label tier is accepted at any
non-empty length. -/
theorem c5_background_rejection (content : Str) (caseNum : Nat) (ch : Char)
    (year : Nat) (subject : Str) (score : Option Nat)
    (h1 : searchBgLabel content = none)
    (h2 : ∀ i, searchQMark content = some i →
      (pyStrip (content.take i)).length ≤ 50)
    (h3 : (tier3Text content).length ≤ 50) :
    extractBackground content = none ∧
    parseSingleCase caseNum ch content year subject score = none := by
  have hbg : extractBackground content = none := by
    unfold extractBackground
    rw [h1]
    cases hq : searchQMark content with
    | some i =>
      have hi := h2 i hq
      have h4 : ¬(50 < (pyStrip (content.take i)).length) := by omega
      have h5 : ¬(50 < (tier3Text content).length) := by omega
      simp [h4, h5]
    | none =>
      have h5 : ¬(50 < (tier3Text content).length) := by omega
      simp [h5]
  refine ⟨hbg, ?_⟩
  unfold parseSingleCase
  rw [hbg]

/-- C5 witness: a short unlabelled candidate is rejected. -/
theorem c5_background_rejection_witness :
    parseSingleCase 1 '一' c5short 2023 ( "机电实务".data) none = none :=
  (c5_background_rejection c5short 1 '一' 2023 ( "机电实务".data) none
    (by decide)
    (by
      intro i hi
      have h0 : searchQMark c5short = some 5 := by decide
      rw [h0] at hi
      cases hi
      decide)
    (by decide)).2

/-- C6 (counterexample): a case section whose only `案例`-numeral
occurrence fails the lookahead (its next characters are neither a line
break nor `背景`) still uses that occurrence as a boundary marker,
because an empty filtered list falls back to the unfiltered matches. -/
theorem c6_counterexample :
    pyFindAllPos casePat1At c6text = [(1, ('一', 4))] ∧
    caseLookPass c6text (1, ('一', 4)) = false ∧
    caseMarkers c6text = [(1, ('一', 4))] := by
  decide

/-- C6 (amended): a format-1 marker occurrence that fails the lookahead is
excluded whenever at least one occurrence passes the filter; when no
occurrence passes, the unfiltered occurrence list is used instead. -/
theorem c6_lookahead_filter (sec : Str) (m : Nat × Char × Nat)
    (hm : m ∈ pyFindAllPos casePat1At sec)
    (hf : caseLookPass sec m = false)
    (hex : ∃ m2 ∈ pyFindAllPos casePat1At sec, caseLookPass sec m2 = true) :
    m ∉ caseMarkers sec := by
  intro hmem
  obtain ⟨m2, hm2, hp2⟩ := hex
  have hfil : m2 ∈ (pyFindAllPos casePat1At sec).filter (caseLookPass sec) :=
    List.mem_filter.mpr ⟨hm2, hp2⟩
  have hne : ((pyFindAllPos casePat1At sec).filter (caseLookPass sec)).isEmpty = false := by
    cases hh : (pyFindAllPos casePat1At sec).filter (caseLookPass sec) with
    | nil => rw [hh] at hfil; cases hfil
    | cons x xs => rfl
  have hcm : caseMarkers sec =
      (pyFindAllPos casePat1At sec).filter (caseLookPass sec) := by
    unfold caseMarkers
    simp [hne]
  rw [hcm] at hmem
  have := (List.mem_filter.mp hmem).2
  rw [hf] at this
  cases this

/-- C6 witness: the failing marker is excluded when a passing one
exists. -/
theorem c6_lookahead_filter_witness :
    (0, ('一', 3)) ∉ caseMarkers c6mix :=
  c6_lookahead_filter c6mix (0, ('一', 3)) (by decide) (by decide)
    ⟨(7, ('二', 12)), by decide, by decide⟩

/-- C7 (counterexample): on a ten-character document matching none of the
five appendix markers, the code's fallback answer region starts at index
`10*3//5 = 6` (the last two fifths, four characters), which is not the last
three fifths (six characters, i.e. `drop (10 - 6)`) that the claim states. -/
theorem c7_counterexample :
    (searchMarker1 c7text = none ∧ searchMarker2 c7text = none ∧
     searchMarker3 c7text = none ∧ searchMarker4 c7text = none ∧
     searchMarker5 c7text = none) ∧
    extractAnswersRegion c7text ≠
      c7text.drop (c7text.length - 3 * c7text.length / 5) := by
  decide

/-- C7 (amended): when none of the five appendix-start markers matches, the
resolver falls back to the suffix of the document starting at character
index `⌊len*3/5⌋`, i.e. the last two fifths of the text. -/
theorem c7_fallback_region (t : Str)
    (h1 : searchMarker1 t = none) (h2 : searchMarker2 t = none)
    (h3 : searchMarker3 t = none) (h4 : searchMarker4 t = none)
    (h5 : searchMarker5 t = none) :
    extractAnswersRegion t = t.drop (t.length * 3 / 5) := by
  simp [extractAnswersRegion, h1, h2, h3, h4, h5]

/-- C7 witness: the amended statement evaluated on the concrete
marker-free document. -/
theorem c7_fallback_region_witness :
    extractAnswersRegion c7text = c7text.drop (c7text.length * 3 / 5) :=
  c7_fallback_region c7text (by decide) (by decide) (by decide) (by decide)
    (by decide)
